import Mathlib

/-!
Shallow embedding of the `class-rs` JVM class-file codec.

The definitions below are translated from the crate's source files
(`src/lib.rs`, `src/reader.rs`, `src/writer.rs`, `src/mapping.rs`,
`src/errors.rs`, `src/structs.rs`, `src/enums/mod.rs`,
`src/enums/instructions.rs`).  Modelling conventions:

* Byte streams are `List Nat` (each element a byte value `< 256`); readers
  have type `List Nat → Option (α × List Nat)` returning the parsed value
  and the remaining stream, writers produce `List Nat` (or
  `Option (List Nat)` when the source can panic).  `none` models every
  abnormal termination of the Rust code on that input: an `Err` return, a
  `panic!` / failed `assert!` / `unreachable!`, and non-termination.
* Machine integers are `Nat` (unsigned) or `Int` (signed), with explicit
  `% 2 ^ w` at the points where the source casts or wraps.
* `f32` / `f64` payloads are carried as their raw big-endian bit patterns
  (`Nat`); the codec never does float arithmetic, it only compares
  instruction constants against the literals `0.0`, `1.0`, `2.0`, which is
  modelled bit-exactly (an IEEE comparison with `0.0` also accepts the
  negative-zero pattern; `NaN` compares unequal to everything).
* Rust `String` values are carried as their UTF-8 byte lists; a
  `String::from_utf8(..).unwrap()` is modelled by a UTF-8 well-formedness
  check.
* The writer's seek-back length-backpatch protocol is modelled by first
  computing the payload bytes and then emitting the header in front of
  them, which produces the identical byte sequence.
* Functions whose Rust counterpart recurses through runtime data (and can
  therefore diverge on cyclic or adversarial input) take an explicit fuel
  argument; the top-level entry points instantiate the fuel with a bound
  that is provably larger than what any terminating run consumes, so on
  every input where the Rust code terminates the model agrees with it, and
  exhausted fuel (`none`) corresponds to divergence.
-/

/-! ## Byte-stream primitives -/

/-- Read one byte (`byteorder::ReadBytesExt::read_u8`). -/
def readU8 : List Nat → Option (Nat × List Nat)
  | [] => none
  | b :: rest => some (b, rest)

/-- Read a big-endian `u16`. -/
def readU16 (s : List Nat) : Option (Nat × List Nat) := do
  let (b0, s) ← readU8 s
  let (b1, s) ← readU8 s
  some (b0 * 256 + b1, s)

/-- Read a big-endian `u32`. -/
def readU32 (s : List Nat) : Option (Nat × List Nat) := do
  let (h, s) ← readU16 s
  let (l, s) ← readU16 s
  some (h * 65536 + l, s)

/-- Read a big-endian `u64`. -/
def readU64 (s : List Nat) : Option (Nat × List Nat) := do
  let (h, s) ← readU32 s
  let (l, s) ← readU32 s
  some (h * 4294967296 + l, s)

/-- Reinterpret an unsigned value of width `w` bits as a signed integer. -/
def toSigned (w : Nat) (n : Nat) : Int :=
  if n < 2 ^ (w - 1) then (n : Int) else (n : Int) - 2 ^ w

/-- Read an `i8`. -/
def readI8 (s : List Nat) : Option (Int × List Nat) := do
  let (b, s) ← readU8 s
  some (toSigned 8 b, s)

/-- Read a big-endian `i16`. -/
def readI16 (s : List Nat) : Option (Int × List Nat) := do
  let (n, s) ← readU16 s
  some (toSigned 16 n, s)

/-- Read a big-endian `i32`. -/
def readI32 (s : List Nat) : Option (Int × List Nat) := do
  let (n, s) ← readU32 s
  some (toSigned 32 n, s)

/-- Read a big-endian `i64`. -/
def readI64 (s : List Nat) : Option (Int × List Nat) := do
  let (n, s) ← readU64 s
  some (toSigned 64 n, s)

/-- Model of `let mut buff = vec![0u8; len]; r.read(&mut buff)`: the buffer
receives the available bytes and keeps its zero fill for the remainder. -/
def readBuff (len : Nat) (s : List Nat) : List Nat × List Nat :=
  (s.take len ++ List.replicate (len - s.length) 0, s.drop len)

/-- Write a `u8` (big-endian writes mirror `byteorder`). -/
def writeU8 (n : Nat) : List Nat := [n % 256]

/-- Write a big-endian `u16`. -/
def writeU16 (n : Nat) : List Nat := [n / 256 % 256, n % 256]

/-- Write a big-endian `u32`. -/
def writeU32 (n : Nat) : List Nat :=
  [n / 16777216 % 256, n / 65536 % 256, n / 256 % 256, n % 256]

/-- Write a big-endian `u64`. -/
def writeU64 (n : Nat) : List Nat :=
  writeU32 (n / 4294967296 % 4294967296) ++ writeU32 (n % 4294967296)

/-- Write an `i8` in two's complement. -/
def writeI8 (i : Int) : List Nat := writeU8 (i % 256).toNat

/-- Write a big-endian `i16` in two's complement. -/
def writeI16 (i : Int) : List Nat := writeU16 (i % 65536).toNat

/-- Write a big-endian `i32` in two's complement. -/
def writeI32 (i : Int) : List Nat := writeU32 (i % 4294967296).toNat

/-- Write a big-endian `i64` in two's complement. -/
def writeI64 (i : Int) : List Nat := writeU64 (i % 18446744073709551616).toNat

/-! ## Access flags (`enums/mod.rs`, `mapping.rs`) -/

/-- The `AccessFlag` enum.  (`Annotation` is shortened to `Annot`.) -/
inductive AccessFlag where
  | Abstract | Annot | Bridge | Enum | Final | Interface | Mandated
  | Module | Native | Open | Public | Private | Protected | Static
  | StaticPhase | Strict | Super | Synchronized | Synthetic | Transient
  | Transitive | VarArgs | Volatile
  deriving DecidableEq, Repr

/-- `mapping.rs` `CLASS_FLAGS`. -/
def CLASS_FLAGS : List (Nat × AccessFlag) :=
  [(0x0001, .Public), (0x0010, .Final), (0x0020, .Super),
   (0x0200, .Interface), (0x0400, .Abstract), (0x1000, .Synthetic),
   (0x2000, .Annot), (0x4000, .Enum), (0x8000, .Module)]

/-- `mapping.rs` `INNER_CLASS_FLAGS`. -/
def INNER_CLASS_FLAGS : List (Nat × AccessFlag) :=
  [(0x0001, .Public), (0x0002, .Private), (0x0004, .Protected),
   (0x0008, .Static), (0x0010, .Final), (0x0200, .Interface),
   (0x0400, .Abstract), (0x1000, .Synthetic), (0x2000, .Annot),
   (0x4000, .Enum)]

/-- `mapping.rs` `FIELD_FLAGS`. -/
def FIELD_FLAGS : List (Nat × AccessFlag) :=
  [(0x0001, .Public), (0x0002, .Private), (0x0004, .Protected),
   (0x0008, .Static), (0x0010, .Final), (0x0040, .Volatile),
   (0x0080, .Transient), (0x1000, .Synthetic), (0x4000, .Enum)]

/-- `mapping.rs` `METHOD_FLAGS`. -/
def METHOD_FLAGS : List (Nat × AccessFlag) :=
  [(0x0001, .Public), (0x0002, .Private), (0x0004, .Protected),
   (0x0008, .Static), (0x0010, .Final), (0x0020, .Synchronized),
   (0x0040, .Bridge), (0x0080, .VarArgs), (0x0100, .Native),
   (0x0400, .Abstract), (0x0800, .Strict), (0x1000, .Synthetic)]

/-- `mapping.rs` `METHOD_PARAMETER_FLAGS`. -/
def METHOD_PARAMETER_FLAGS : List (Nat × AccessFlag) :=
  [(0x0010, .Final), (0x1000, .Synthetic), (0x8000, .Mandated)]

/-- `mapping.rs` `MODULE_FLAGS`. -/
def MODULE_FLAGS : List (Nat × AccessFlag) :=
  [(0x0020, .Open), (0x1000, .Synthetic), (0x8000, .Mandated)]

/-- `mapping.rs` `MODULE_REQUIRES_FLAGS`. -/
def MODULE_REQUIRES_FLAGS : List (Nat × AccessFlag) :=
  [(0x0020, .Transitive), (0x0040, .StaticPhase), (0x1000, .Synthetic),
   (0x8000, .Mandated)]

/-- `mapping.rs` `MODULE_OPENS_FLAGS`. -/
def MODULE_OPENS_FLAGS : List (Nat × AccessFlag) :=
  [(0x1000, .Synthetic), (0x8000, .Mandated)]

/-- `mapping.rs` `MODULE_EXPORTS_FLAGS`. -/
def MODULE_EXPORTS_FLAGS : List (Nat × AccessFlag) :=
  [(0x1000, .Synthetic), (0x8000, .Mandated)]

/-- `reader.rs` `extract_flags`: keep, in table order, each flag whose mask
intersects the input. -/
def extract_flags (flags : Nat) (mapping : List (Nat × AccessFlag)) :
    List AccessFlag :=
  (mapping.filter (fun p => p.1 &&& flags != 0)).map Prod.snd

/-- `writer.rs` `compact_flags`: sum of the masks whose flag is present. -/
def compact_flags (flags : List AccessFlag)
    (mapping : List (Nat × AccessFlag)) : Nat :=
  ((mapping.filter (fun p => flags.contains p.2)).map Prod.fst).sum

def extract_class_flags (flags : Nat) : List AccessFlag :=
  extract_flags flags CLASS_FLAGS

def extract_inner_class_flags (flags : Nat) : List AccessFlag :=
  extract_flags flags INNER_CLASS_FLAGS

def extract_field_flags (flags : Nat) : List AccessFlag :=
  extract_flags flags FIELD_FLAGS

def extract_method_flags (flags : Nat) : List AccessFlag :=
  extract_flags flags METHOD_FLAGS

def extract_method_parameter_flags (flags : Nat) : List AccessFlag :=
  extract_flags flags METHOD_PARAMETER_FLAGS

def extract_module_flags (flags : Nat) : List AccessFlag :=
  extract_flags flags MODULE_FLAGS

def extract_module_requires_flags (flags : Nat) : List AccessFlag :=
  extract_flags flags MODULE_REQUIRES_FLAGS

def extract_module_opens_flags (flags : Nat) : List AccessFlag :=
  extract_flags flags MODULE_OPENS_FLAGS

def extract_module_exports_flags (flags : Nat) : List AccessFlag :=
  extract_flags flags MODULE_EXPORTS_FLAGS

def compact_class_flags (flags : List AccessFlag) : Nat :=
  compact_flags flags CLASS_FLAGS

def compact_inner_class_flags (flags : List AccessFlag) : Nat :=
  compact_flags flags INNER_CLASS_FLAGS

def compact_field_flags (flags : List AccessFlag) : Nat :=
  compact_flags flags FIELD_FLAGS

def compact_method_flags (flags : List AccessFlag) : Nat :=
  compact_flags flags METHOD_FLAGS

def compact_method_parameter_flags (flags : List AccessFlag) : Nat :=
  compact_flags flags METHOD_PARAMETER_FLAGS

def compact_module_flags (flags : List AccessFlag) : Nat :=
  compact_flags flags MODULE_FLAGS

def compact_module_requires_flags (flags : List AccessFlag) : Nat :=
  compact_flags flags MODULE_REQUIRES_FLAGS

def compact_module_opens_flags (flags : List AccessFlag) : Nat :=
  compact_flags flags MODULE_OPENS_FLAGS

def compact_module_exports_flags (flags : List AccessFlag) : Nat :=
  compact_flags flags MODULE_EXPORTS_FLAGS

/-- The spec's `mask_union`: bitwise OR of all masks of a mapping table. -/
def mask_union (mapping : List (Nat × AccessFlag)) : Nat :=
  (mapping.map Prod.fst).foldr (· ||| ·) 0

/-! ## Flag-mapper lemmas (claim C10) -/

/-- The contribution of a single power-of-two mask to `compact_flags`. -/
theorem ite_and_two_pow (k x : Nat) :
    (if 2 ^ k &&& x ≠ 0 then 2 ^ k else 0) = x &&& 2 ^ k := by
  by_cases hx : x.testBit k
  · have hne : 2 ^ k &&& x ≠ 0 := by
      intro h0
      have := congrArg (Nat.testBit · k) h0
      simp [Nat.testBit_and, Nat.testBit_two_pow_self, hx] at this
    rw [if_pos hne]
    apply Nat.eq_of_testBit_eq
    intro i
    by_cases hik : k = i
    · subst hik
      simp [Nat.testBit_and, Nat.testBit_two_pow_self, hx]
    · simp [Nat.testBit_and, Nat.testBit_two_pow_of_ne hik]
  · have hz : 2 ^ k &&& x = 0 := by
      apply Nat.eq_of_testBit_eq
      intro i
      by_cases hik : k = i
      · subst hik
        simp [Nat.testBit_and, hx]
      · simp [Nat.testBit_and, Nat.testBit_two_pow_of_ne hik]
    rw [if_neg (by simp [hz])]
    apply Nat.eq_of_testBit_eq
    intro i
    by_cases hik : k = i
    · subst hik
      simp [Nat.testBit_and, hx]
    · simp [Nat.testBit_and, Nat.testBit_two_pow_of_ne hik]

/-- Adding numbers with disjoint bits is bitwise OR. -/
theorem add_eq_or_of_and_eq_zero :
    ∀ (a b : Nat), a &&& b = 0 → a + b = a ||| b := by
  intro a
  induction a using Nat.strong_induction_on with
  | _ a ih =>
    intro b h
    rcases Nat.eq_zero_or_pos a with ha | ha
    · simp [ha]
    · have hdiv : a / 2 &&& b / 2 = 0 := by
        rw [← Nat.and_div_two, h]
      have ihd : a / 2 + b / 2 = a / 2 ||| b / 2 :=
        ih (a / 2) (Nat.div_lt_self ha (by norm_num)) (b / 2) hdiv
      have hmod : ¬(a % 2 = 1 ∧ b % 2 = 1) := by
        intro hc
        have : (a &&& b) % 2 = 1 := Nat.and_mod_two_eq_one.mpr hc
        rw [h] at this
        simp at this
      have hormod : (a ||| b) % 2 = a % 2 + b % 2 := by
        have ha2 := Nat.mod_two_eq_zero_or_one a
        have hb2 := Nat.mod_two_eq_zero_or_one b
        rcases ha2 with h1 | h1 <;> rcases hb2 with h2 | h2
        · have : ¬((a ||| b) % 2 = 1) := by
            rw [Nat.or_mod_two_eq_one]
            omega
          have := Nat.mod_two_eq_zero_or_one (a ||| b)
          omega
        · have : (a ||| b) % 2 = 1 := Nat.or_mod_two_eq_one.mpr (Or.inr h2)
          omega
        · have : (a ||| b) % 2 = 1 := Nat.or_mod_two_eq_one.mpr (Or.inl h1)
          omega
        · exact absurd ⟨h1, h2⟩ hmod
      have hdec_a := Nat.div_add_mod a 2
      have hdec_b := Nat.div_add_mod b 2
      have hdec_o := Nat.div_add_mod (a ||| b) 2
      rw [Nat.or_div_two] at hdec_o
      omega

/-- A mask disjoint from every element of a list is disjoint from their OR. -/
theorem and_foldr_or_eq_zero (m : Nat) (ms : List Nat)
    (h : ∀ b ∈ ms, m &&& b = 0) :
    m &&& ms.foldr (· ||| ·) 0 = 0 := by
  induction ms with
  | nil => simp
  | cons c ms ih =>
    simp only [List.foldr_cons]
    rw [Nat.and_or_distrib_left, h c (by simp),
      ih (fun b hb => h b (List.mem_cons_of_mem _ hb))]
    simp

/-- Summing `x &&& mᵢ` over pairwise-disjoint masks is `x` AND their OR. -/
theorem sum_and_eq_and_foldr_or (x : Nat) (ms : List Nat)
    (hd : ms.Pairwise (fun a b => a &&& b = 0)) :
    (ms.map (fun m => x &&& m)).sum = x &&& ms.foldr (· ||| ·) 0 := by
  induction ms with
  | nil => simp
  | cons m ms ih =>
    have hd' := (List.pairwise_cons.mp hd)
    have hU : m &&& ms.foldr (· ||| ·) 0 = 0 :=
      and_foldr_or_eq_zero m ms hd'.1
    have hdisj : (x &&& m) &&& (x &&& ms.foldr (· ||| ·) 0) = 0 := by
      apply Nat.eq_of_testBit_eq
      intro i
      have h2 := congrArg (Nat.testBit · i) hU
      simp only [Nat.testBit_and, Nat.zero_testBit] at h2 ⊢
      cases hxb : x.testBit i <;> cases hmb : m.testBit i <;> simp_all
    simp only [List.map_cons, List.sum_cons, List.foldr_cons]
    rw [ih hd'.2, add_eq_or_of_and_eq_zero _ _ hdisj,
      ← Nat.and_or_distrib_left]

/-- Sum of a filtered-then-mapped list as a sum of guarded terms. -/
theorem sum_filter_map_eq_sum_ite {α : Type} (l : List α) (p : α → Bool)
    (f : α → Nat) :
    ((l.filter p).map f).sum =
      (l.map (fun a => if p a then f a else 0)).sum := by
  induction l with
  | nil => simp
  | cons a l ih =>
    by_cases hp : p a <;> simp [List.filter_cons, hp, ih]

/-- With distinct flags, membership of a flag in the extracted list is
exactly the test on its own mask. -/
theorem extract_contains_iff (T : List (Nat × AccessFlag)) (x : Nat)
    (m : Nat) (f : AccessFlag) (hmem : (m, f) ∈ T)
    (hnd : (T.map Prod.snd).Nodup) :
    (extract_flags x T).contains f = (m &&& x != 0) := by
  unfold extract_flags
  rcases hbc : (m &&& x != 0) with _ | _
  · simp only [List.contains_eq_any_beq, List.any_eq_false]
    intro g hg hgf
    rw [beq_iff_eq] at hgf
    subst hgf
    rw [List.mem_map] at hg
    obtain ⟨q, hq, hqf⟩ := hg
    rw [List.mem_filter] at hq
    have hqm : q = (m, f) := by
      have h1 : q ∈ T := hq.1
      have hpair : q.2 = (m, f).2 := by simpa using hqf
      by_contra hne
      have := List.inj_on_of_nodup_map hnd h1 hmem hpair
      exact hne this
    rw [hqm] at hq
    simp only [bne_iff_ne, ne_eq] at hq hbc
    have := hq.2
    simp only [decide_eq_true_eq] at this
    rw [bne_eq_false_iff_eq] at hbc
    exact this hbc
  · simp only [List.contains_eq_any_beq, List.any_eq_true]
    refine ⟨f, ?_, by simp⟩
    rw [List.mem_map]
    refine ⟨(m, f), ?_, rfl⟩
    rw [List.mem_filter]
    exact ⟨hmem, by simpa using hbc⟩

/-- Packing the unpacked flags of `x` recovers `x` masked by the table's
mask union, for any table with distinct flags and pairwise-disjoint
power-of-two masks. -/
theorem compact_extract_flags (T : List (Nat × AccessFlag)) (x : Nat)
    (hnd : (T.map Prod.snd).Nodup)
    (hpow : ∀ p ∈ T, p.1 ∈ (List.range 16).map (2 ^ ·))
    (hdisj : (T.map Prod.fst).Pairwise (fun a b => a &&& b = 0)) :
    compact_flags (extract_flags x T) T = x &&& mask_union T := by
  unfold compact_flags mask_union
  rw [sum_filter_map_eq_sum_ite]
  have step1 : (T.map (fun p =>
      if (extract_flags x T).contains p.2 then p.1 else 0)) =
      T.map (fun p => if (p.1 &&& x != 0) then p.1 else 0) := by
    apply List.map_congr_left
    intro p hp
    rw [extract_contains_iff T x p.1 p.2 hp hnd]
  rw [step1]
  have step2 : (T.map (fun p => if (p.1 &&& x != 0) then p.1 else 0)) =
      T.map (fun p => x &&& p.1) := by
    apply List.map_congr_left
    intro p hp
    obtain ⟨k, _, hk⟩ := by simpa using hpow p hp
    rw [← hk]
    simpa using ite_and_two_pow k x
  rw [step2]
  have : T.map (fun p => x &&& p.1) =
      (T.map Prod.fst).map (fun m => x &&& m) := by
    simp [List.map_map, Function.comp]
  rw [this, sum_and_eq_and_foldr_or x _ hdisj, List.foldr_map]

/-- The unpacked flags appear in table order. -/
theorem extract_flags_sublist (x : Nat) (T : List (Nat × AccessFlag)) :
    (extract_flags x T).Sublist (T.map Prod.snd) :=
  List.Sublist.map Prod.snd (List.filter_sublist T)

/-- C10: for each of the nine flag-mapping contexts, packing the result of
unpacking `x` gives `x &&& mask_union`, and the unpacked flags appear in
table order (they form a sublist of the table's flag column). -/
theorem claim_C10_flag_roundtrip (x : Nat) :
    (compact_class_flags (extract_class_flags x) =
        x &&& mask_union CLASS_FLAGS
      ∧ (extract_class_flags x).Sublist (CLASS_FLAGS.map Prod.snd))
    ∧ (compact_inner_class_flags (extract_inner_class_flags x) =
        x &&& mask_union INNER_CLASS_FLAGS
      ∧ (extract_inner_class_flags x).Sublist
          (INNER_CLASS_FLAGS.map Prod.snd))
    ∧ (compact_field_flags (extract_field_flags x) =
        x &&& mask_union FIELD_FLAGS
      ∧ (extract_field_flags x).Sublist (FIELD_FLAGS.map Prod.snd))
    ∧ (compact_method_flags (extract_method_flags x) =
        x &&& mask_union METHOD_FLAGS
      ∧ (extract_method_flags x).Sublist (METHOD_FLAGS.map Prod.snd))
    ∧ (compact_method_parameter_flags (extract_method_parameter_flags x) =
        x &&& mask_union METHOD_PARAMETER_FLAGS
      ∧ (extract_method_parameter_flags x).Sublist
          (METHOD_PARAMETER_FLAGS.map Prod.snd))
    ∧ (compact_module_flags (extract_module_flags x) =
        x &&& mask_union MODULE_FLAGS
      ∧ (extract_module_flags x).Sublist (MODULE_FLAGS.map Prod.snd))
    ∧ (compact_module_requires_flags (extract_module_requires_flags x) =
        x &&& mask_union MODULE_REQUIRES_FLAGS
      ∧ (extract_module_requires_flags x).Sublist
          (MODULE_REQUIRES_FLAGS.map Prod.snd))
    ∧ (compact_module_opens_flags (extract_module_opens_flags x) =
        x &&& mask_union MODULE_OPENS_FLAGS
      ∧ (extract_module_opens_flags x).Sublist
          (MODULE_OPENS_FLAGS.map Prod.snd))
    ∧ (compact_module_exports_flags (extract_module_exports_flags x) =
        x &&& mask_union MODULE_EXPORTS_FLAGS
      ∧ (extract_module_exports_flags x).Sublist
          (MODULE_EXPORTS_FLAGS.map Prod.snd)) :=
  ⟨⟨compact_extract_flags CLASS_FLAGS x (by decide) (by decide) (by decide),
    extract_flags_sublist x CLASS_FLAGS⟩,
   ⟨compact_extract_flags INNER_CLASS_FLAGS x (by decide) (by decide)
      (by decide),
    extract_flags_sublist x INNER_CLASS_FLAGS⟩,
   ⟨compact_extract_flags FIELD_FLAGS x (by decide) (by decide) (by decide),
    extract_flags_sublist x FIELD_FLAGS⟩,
   ⟨compact_extract_flags METHOD_FLAGS x (by decide) (by decide)
      (by decide),
    extract_flags_sublist x METHOD_FLAGS⟩,
   ⟨compact_extract_flags METHOD_PARAMETER_FLAGS x (by decide) (by decide)
      (by decide),
    extract_flags_sublist x METHOD_PARAMETER_FLAGS⟩,
   ⟨compact_extract_flags MODULE_FLAGS x (by decide) (by decide)
      (by decide),
    extract_flags_sublist x MODULE_FLAGS⟩,
   ⟨compact_extract_flags MODULE_REQUIRES_FLAGS x (by decide) (by decide)
      (by decide),
    extract_flags_sublist x MODULE_REQUIRES_FLAGS⟩,
   ⟨compact_extract_flags MODULE_OPENS_FLAGS x (by decide) (by decide)
      (by decide),
    extract_flags_sublist x MODULE_OPENS_FLAGS⟩,
   ⟨compact_extract_flags MODULE_EXPORTS_FLAGS x (by decide) (by decide)
      (by decide),
    extract_flags_sublist x MODULE_EXPORTS_FLAGS⟩⟩

/-! ## Constant pool (`enums/mod.rs` `Constant`, `reader.rs`
`read_constant_pool`, `writer.rs` `write_constant_pool`) -/

/-- The `Constant` enum.  `Utf8` carries the string's UTF-8 bytes; `Float`
and `Double` carry the raw IEEE bit patterns read from the wire. -/
inductive Constant where
  | Class (name_index : Nat)
  | Double (bits : Nat)
  | Dynamic (bootstrap_method_attr_index name_and_type_index : Nat)
  | Fieldref (class_index name_and_type_index : Nat)
  | Float (bits : Nat)
  | Integer (value : Int)
  | InterfaceMethodref (class_index name_and_type_index : Nat)
  | Invalid
  | InvokeDynamic (bootstrap_method_attr_index name_and_type_index : Nat)
  | Long (value : Int)
  | MethodHandle (reference_kind reference_index : Nat)
  | Methodref (class_index name_and_type_index : Nat)
  | MethodType (descriptor_index : Nat)
  | Module (name_index : Nat)
  | NameAndType (name_index descriptor_index : Nat)
  | Package (name_index : Nat)
  | String (string_index : Nat)
  | Utf8 (s : List Nat)
  deriving DecidableEq, Repr

/-- Continuation byte test for UTF-8 validation. -/
def utf8Cont (c : Nat) : Bool := 0x80 ≤ c && c ≤ 0xBF

/-- UTF-8 well-formedness of a byte list, as checked by Rust's
`String::from_utf8` (rejecting overlong forms, surrogates and values
above `U+10FFFF`). -/
def validUtf8 : List Nat → Bool
  | [] => true
  | b :: rest =>
    if b < 0x80 then validUtf8 rest
    else if 0xC2 ≤ b && b ≤ 0xDF then
      match rest with
      | c1 :: r => utf8Cont c1 && validUtf8 r
      | [] => false
    else if b == 0xE0 then
      match rest with
      | c1 :: c2 :: r =>
        (0xA0 ≤ c1 && c1 ≤ 0xBF) && utf8Cont c2 && validUtf8 r
      | _ => false
    else if (0xE1 ≤ b && b ≤ 0xEC) || b == 0xEE || b == 0xEF then
      match rest with
      | c1 :: c2 :: r => utf8Cont c1 && utf8Cont c2 && validUtf8 r
      | _ => false
    else if b == 0xED then
      match rest with
      | c1 :: c2 :: r =>
        (0x80 ≤ c1 && c1 ≤ 0x9F) && utf8Cont c2 && validUtf8 r
      | _ => false
    else if b == 0xF0 then
      match rest with
      | c1 :: c2 :: c3 :: r =>
        (0x90 ≤ c1 && c1 ≤ 0xBF) && utf8Cont c2 && utf8Cont c3 &&
          validUtf8 r
      | _ => false
    else if 0xF1 ≤ b && b ≤ 0xF3 then
      match rest with
      | c1 :: c2 :: c3 :: r =>
        utf8Cont c1 && utf8Cont c2 && utf8Cont c3 && validUtf8 r
      | _ => false
    else if b == 0xF4 then
      match rest with
      | c1 :: c2 :: c3 :: r =>
        (0x80 ≤ c1 && c1 ≤ 0x8F) && utf8Cont c2 && utf8Cont c3 &&
          validUtf8 r
      | _ => false
    else false

/-- One arm of the tag dispatch in `read_constant_pool` (the body of the
`match tag` expression; an unknown tag is the `panic!`). -/
def readConstant (tag : Nat) (s : List Nat) :
    Option (Constant × List Nat) :=
  match tag with
  | 1 => do
    let (length, s) ← readU16 s
    let (buff, s) := readBuff length s
    if validUtf8 buff then some (Constant.Utf8 buff, s) else none
  | 3 => do
    let (value, s) ← readI32 s
    some (Constant.Integer value, s)
  | 4 => do
    let (bits, s) ← readU32 s
    some (Constant.Float bits, s)
  | 5 => do
    let (value, s) ← readI64 s
    some (Constant.Long value, s)
  | 6 => do
    let (bits, s) ← readU64 s
    some (Constant.Double bits, s)
  | 7 => do
    let (name_index, s) ← readU16 s
    some (Constant.Class name_index, s)
  | 8 => do
    let (string_index, s) ← readU16 s
    some (Constant.String string_index, s)
  | 9 => do
    let (class_index, s) ← readU16 s
    let (name_and_type_index, s) ← readU16 s
    some (Constant.Fieldref class_index name_and_type_index, s)
  | 10 => do
    let (class_index, s) ← readU16 s
    let (name_and_type_index, s) ← readU16 s
    some (Constant.Methodref class_index name_and_type_index, s)
  | 11 => do
    let (class_index, s) ← readU16 s
    let (name_and_type_index, s) ← readU16 s
    some (Constant.InterfaceMethodref class_index name_and_type_index, s)
  | 12 => do
    let (name_index, s) ← readU16 s
    let (descriptor_index, s) ← readU16 s
    some (Constant.NameAndType name_index descriptor_index, s)
  | 15 => do
    let (reference_kind, s) ← readU8 s
    let (reference_index, s) ← readU16 s
    some (Constant.MethodHandle reference_kind reference_index, s)
  | 16 => do
    let (descriptor_index, s) ← readU16 s
    some (Constant.MethodType descriptor_index, s)
  | 17 => do
    let (bmai, s) ← readU16 s
    let (nati, s) ← readU16 s
    some (Constant.Dynamic bmai nati, s)
  | 18 => do
    let (bmai, s) ← readU16 s
    let (nati, s) ← readU16 s
    some (Constant.InvokeDynamic bmai nati, s)
  | 19 => do
    let (name_index, s) ← readU16 s
    some (Constant.Module name_index, s)
  | 20 => do
    let (name_index, s) ← readU16 s
    some (Constant.Package name_index, s)
  | _ => none

/-- Is the constant a `Long` or `Double` (the `double_constants` bump and
the extra-`Invalid` push both key on this)? -/
def isWideConstant : Constant → Bool
  | .Long _ | .Double _ => true
  | _ => false

/-- The `for i in 1..count` loop of `read_constant_pool`, including the
early `break` once `i >= count - double_constants`.  The `fuel` argument
only bounds the recursion depth: the loop runs at most `count - i` more
iterations, so any `fuel ≥ count - i` (the caller passes `count`) gives
the source's behavior. -/
def read_constant_pool_loop (fuel : Nat) (count : Nat) (i dc : Nat)
    (constants : List Constant) (s : List Nat) :
    Option (List Constant × List Nat) :=
  if i ≥ count then some (constants, s)
  else if i ≥ count - dc then some (constants, s)
  else
    match fuel with
    | 0 => none
    | fuel + 1 =>
      match readU8 s with
      | none => none
      | some (tag, s) =>
        match readConstant tag s with
        | none => none
        | some (cnst, s) =>
          if isWideConstant cnst then
            read_constant_pool_loop fuel count (i + 1) (dc + 1)
              (constants ++ [cnst, Constant.Invalid]) s
          else
            read_constant_pool_loop fuel count (i + 1) dc
              (constants ++ [cnst]) s

/-- `reader.rs` `read_constant_pool`. -/
def read_constant_pool (s : List Nat) :
    Option (List Constant × List Nat) := do
  let (count, s) ← readU16 s
  read_constant_pool_loop count count 1 0 [Constant.Invalid] s

/-- The bytes one constant contributes in `write_constant_pool`'s loop
(`Invalid` is skipped). -/
def writeConstant : Constant → List Nat
  | .Utf8 s => writeU8 1 ++ writeU16 s.length ++ s
  | .Integer value => writeU8 3 ++ writeI32 value
  | .Float bits => writeU8 4 ++ writeU32 bits
  | .Long value => writeU8 5 ++ writeI64 value
  | .Double bits => writeU8 6 ++ writeU64 bits
  | .Class name_index => writeU8 7 ++ writeU16 name_index
  | .String string_index => writeU8 8 ++ writeU16 string_index
  | .Fieldref ci nati => writeU8 9 ++ writeU16 ci ++ writeU16 nati
  | .Methodref ci nati => writeU8 10 ++ writeU16 ci ++ writeU16 nati
  | .InterfaceMethodref ci nati =>
    writeU8 11 ++ writeU16 ci ++ writeU16 nati
  | .NameAndType ni di => writeU8 12 ++ writeU16 ni ++ writeU16 di
  | .MethodHandle kind idx => writeU8 15 ++ writeU8 kind ++ writeU16 idx
  | .MethodType di => writeU8 16 ++ writeU16 di
  | .Dynamic bmai nati => writeU8 17 ++ writeU16 bmai ++ writeU16 nati
  | .InvokeDynamic bmai nati =>
    writeU8 18 ++ writeU16 bmai ++ writeU16 nati
  | .Module ni => writeU8 19 ++ writeU16 ni
  | .Package ni => writeU8 20 ++ writeU16 ni
  | .Invalid => []

/-- `writer.rs` `write_constant_pool`: the length (including placeholders)
as `u16`, then every entry in order. -/
def write_constant_pool (constants : List Constant) : List Nat :=
  writeU16 constants.length ++ constants.flatMap writeConstant

/-- Claim-side invariant: immediately after every `Long` or `Double`
there is an `Invalid` entry. -/
def wideOk : List Constant → Bool
  | [] => true
  | c :: rest =>
    if isWideConstant c then
      (rest.head? == some Constant.Invalid) && wideOk rest
    else wideOk rest

/-! ## Constant-pool lemmas (claim C9) -/

/-- Appending a non-wide constant preserves the wide-pair invariant. -/
theorem wideOk_append_one (l : List Constant) (c : Constant)
    (hl : wideOk l = true) (hc : isWideConstant c = false) :
    wideOk (l ++ [c]) = true := by
  induction l with
  | nil => simp [wideOk, hc]
  | cons a l ih =>
    rw [wideOk] at hl
    rw [List.cons_append, wideOk]
    by_cases ha : isWideConstant a = true
    · simp only [ha, if_true] at hl ⊢
      rw [Bool.and_eq_true] at hl
      obtain ⟨h1, h2⟩ := hl
      rw [beq_iff_eq] at h1
      cases l with
      | nil => simp at h1
      | cons b l' =>
        simp only [List.head?_cons, Option.some.injEq] at h1
        subst h1
        simp only [List.cons_append, List.head?_cons]
        rw [Bool.and_eq_true]
        exact ⟨by simp, by simpa [List.cons_append] using ih h2⟩
    · simp only [ha, if_false] at hl ⊢
      exact ih hl

/-- Appending a wide constant together with its `Invalid` filler preserves
the wide-pair invariant. -/
theorem wideOk_append_two (l : List Constant) (c : Constant)
    (hl : wideOk l = true) (hc : isWideConstant c = true) :
    wideOk (l ++ [c, Constant.Invalid]) = true := by
  induction l with
  | nil => simp [wideOk, hc, isWideConstant]
  | cons a l ih =>
    rw [wideOk] at hl
    rw [List.cons_append, wideOk]
    by_cases ha : isWideConstant a = true
    · simp only [ha, if_true] at hl ⊢
      rw [Bool.and_eq_true] at hl
      obtain ⟨h1, h2⟩ := hl
      rw [beq_iff_eq] at h1
      cases l with
      | nil => simp at h1
      | cons b l' =>
        simp only [List.head?_cons, Option.some.injEq] at h1
        subst h1
        simp only [List.cons_append, List.head?_cons]
        rw [Bool.and_eq_true]
        exact ⟨by simp, by simpa [List.cons_append] using ih h2⟩
    · simp only [ha, if_false] at hl ⊢
      exact ih hl

/-- Invariant of the constant-pool read loop: the accumulated pool keeps
its seeded `Invalid` head and the wide-pair shape, and on return its
length is `count` or, when a wide constant started at slot `count - 1`,
`count + 1`. -/
theorem read_constant_pool_loop_spec (count : Nat) :
    ∀ (fuel i dc : Nat) (acc : List Constant) (s : List Nat)
      (pool : List Constant) (rest : List Nat),
      read_constant_pool_loop fuel count i dc acc s = some (pool, rest) →
      acc.length = i + dc →
      acc.head? = some Constant.Invalid →
      wideOk acc = true →
      acc.length ≤ count + 1 →
      (acc.length = count + 1 →
        ∃ c, acc[count - 1]? = some c ∧ isWideConstant c = true) →
      pool.head? = some Constant.Invalid ∧ wideOk pool = true ∧
        count ≤ pool.length ∧ pool.length ≤ count + 1 ∧
        (pool.length = count + 1 →
          ∃ c, pool[count - 1]? = some c ∧ isWideConstant c = true) := by
  intro fuel
  induction fuel with
  | zero =>
    intro i dc acc s pool rest heq hlen hhead hwide hub hend
    rw [read_constant_pool_loop] at heq
    by_cases h1 : i ≥ count
    · rw [if_pos h1] at heq
      obtain ⟨rfl, rfl⟩ : acc = pool ∧ s = rest := by
        simpa using heq
      exact ⟨hhead, hwide, by omega, hub, hend⟩
    · rw [if_neg h1] at heq
      by_cases h2 : i ≥ count - dc
      · rw [if_pos h2] at heq
        obtain ⟨rfl, rfl⟩ : acc = pool ∧ s = rest := by
          simpa using heq
        exact ⟨hhead, hwide, by omega, hub, hend⟩
      · rw [if_neg h2] at heq
        simp at heq
  | succ fuel ih =>
    intro i dc acc s pool rest heq hlen hhead hwide hub hend
    rw [read_constant_pool_loop] at heq
    by_cases h1 : i ≥ count
    · rw [if_pos h1] at heq
      obtain ⟨rfl, rfl⟩ : acc = pool ∧ s = rest := by
        simpa using heq
      exact ⟨hhead, hwide, by omega, hub, hend⟩
    · rw [if_neg h1] at heq
      by_cases h2 : i ≥ count - dc
      · rw [if_pos h2] at heq
        obtain ⟨rfl, rfl⟩ : acc = pool ∧ s = rest := by
          simpa using heq
        exact ⟨hhead, hwide, by omega, hub, hend⟩
      · rw [if_neg h2] at heq
        rcases hr : readU8 s with _ | ⟨tag, s1⟩
        · simp only [hr] at heq
          exact Option.noConfusion heq
        simp only [hr] at heq
        rcases hc : readConstant tag s1 with _ | ⟨cnst, s2⟩
        · simp only [hc] at heq
          exact Option.noConfusion heq
        simp only [hc] at heq
        by_cases hw : isWideConstant cnst = true
        · rw [if_pos hw] at heq
          refine ih (i + 1) (dc + 1) (acc ++ [cnst, Constant.Invalid]) s2
            pool rest heq ?_ ?_ ?_ ?_ ?_
          · simp [hlen]; omega
          · rw [List.head?_append, hhead]; rfl
          · exact wideOk_append_two acc cnst hwide hw
          · simp only [List.length_append, hlen, List.length_cons,
              List.length_nil]
            omega
          · intro hlen2
            simp only [List.length_append, hlen, List.length_cons,
              List.length_nil] at hlen2
            have hidx : count - 1 = acc.length := by omega
            refine ⟨cnst, ?_, hw⟩
            rw [hidx, List.getElem?_append_right (le_refl acc.length)]
            simp
        · rw [if_neg hw] at heq
          have hw' : isWideConstant cnst = false := by
            simpa using hw
          refine ih (i + 1) dc (acc ++ [cnst]) s2 pool rest heq
            ?_ ?_ ?_ ?_ ?_
          · simp [hlen]; omega
          · rw [List.head?_append, hhead]; rfl
          · exact wideOk_append_one acc cnst hwide hw'
          · simp only [List.length_append, hlen, List.length_cons,
              List.length_nil]
            omega
          · intro hlen2
            simp only [List.length_append, hlen, List.length_cons,
              List.length_nil] at hlen2
            omega

/-- C9 counterexample: the wire count of this pool is 2, the decode is
accepted, yet the resulting pool has 3 entries — the `Long` read in the
final wire slot pushes its placeholder past `count`.  (The claim's
`exactly count entries` fails on an accepted input.) -/
theorem claim_C9_counterexample :
    readU16 [0, 2, 5, 1, 1, 1, 1, 1, 1, 1, 1] =
      some (2, [5, 1, 1, 1, 1, 1, 1, 1, 1]) ∧
    read_constant_pool [0, 2, 5, 1, 1, 1, 1, 1, 1, 1, 1] =
      some ([Constant.Invalid, Constant.Long 72340172838076673,
        Constant.Invalid], []) ∧
    ([Constant.Invalid, Constant.Long 72340172838076673,
        Constant.Invalid] : List Constant).length ≠ 2 := by
  refine ⟨by decide, by decide, by decide⟩

/-- C9 (amended): decoding a constant pool whose wire count is `count`
yields a pool whose entry 0 is `Invalid` and in which the entry
immediately after every `Long` or `Double` is `Invalid`; the pool has
exactly `count` entries, except that wire count 0 yields the single
seeded `Invalid` and a `Long`/`Double` starting in the final wire slot
`count - 1` yields `count + 1` entries.  Encoding writes the pool's total
length (including placeholders) as the `u16` count and emits no bytes for
`Invalid` entries (appending an `Invalid` changes only the count field). -/
theorem claim_C9_pool_shape :
    (∀ (s : List Nat) (count : Nat) (s1 : List Nat)
        (pool : List Constant) (rest : List Nat),
      readU16 s = some (count, s1) →
      read_constant_pool s = some (pool, rest) →
      pool.head? = some Constant.Invalid ∧ wideOk pool = true ∧
        (count = 0 → pool = [Constant.Invalid]) ∧
        (1 ≤ count →
          pool.length = count ∨
            (pool.length = count + 1 ∧
              ∃ c, pool[count - 1]? = some c ∧ isWideConstant c = true)))
    ∧ (∀ pool : List Constant,
        (write_constant_pool pool).take 2 = writeU16 pool.length)
    ∧ (∀ pool : List Constant,
        write_constant_pool (pool ++ [Constant.Invalid]) =
          writeU16 (pool.length + 1) ++ (write_constant_pool pool).drop 2) := by
  refine ⟨?_, ?_, ?_⟩
  · intro s count s1 pool rest h16 heq
    rw [read_constant_pool, h16] at heq
    simp only [Option.pure_def, Option.bind_eq_bind, Option.some_bind]
      at heq
    rcases Nat.eq_zero_or_pos count with hc0 | hc1
    · subst hc0
      rw [read_constant_pool_loop.eq_def] at heq
      norm_num at heq
      obtain ⟨rfl, rfl⟩ : [Constant.Invalid] = pool ∧ s1 = rest := by
        simpa using heq
      refine ⟨rfl, rfl, fun _ => rfl, by omega⟩
    · have hmain := read_constant_pool_loop_spec count count 1 0
        [Constant.Invalid] s1 pool rest heq (by simp) rfl rfl
        (by have h1 : ([Constant.Invalid] : List Constant).length = 1 := rfl
            omega)
        (by intro h
            have h1 : ([Constant.Invalid] : List Constant).length = 1 := rfl
            exfalso
            omega)
      obtain ⟨hh, hw, hlb, hub, hendw⟩ := hmain
      refine ⟨hh, hw, fun h0 => absurd h0 (by omega), fun _ => ?_⟩
      rcases Nat.lt_or_ge pool.length (count + 1) with hlt | hge
      · exact Or.inl (by omega)
      · have : pool.length = count + 1 := by omega
        exact Or.inr ⟨this, hendw this⟩
  · intro pool
    rw [write_constant_pool, writeU16]
    rfl
  · intro pool
    rw [write_constant_pool, write_constant_pool]
    simp [List.flatMap_append, writeConstant, writeU16]

/-- Witness for `claim_C9_pool_shape`: a concrete three-slot pool whose
decode hypotheses hold and whose decoded shape satisfies the conclusion. -/
theorem claim_C9_pool_shape_witness :
    (readU16 [0, 3, 5, 1, 1, 1, 1, 1, 1, 1, 1] =
        some (3, [5, 1, 1, 1, 1, 1, 1, 1, 1]) ∧
      read_constant_pool [0, 3, 5, 1, 1, 1, 1, 1, 1, 1, 1] =
        some ([Constant.Invalid, Constant.Long 72340172838076673,
          Constant.Invalid], [])) ∧
    (([Constant.Invalid, Constant.Long 72340172838076673,
        Constant.Invalid] : List Constant).head? =
          some Constant.Invalid ∧
      wideOk [Constant.Invalid, Constant.Long 72340172838076673,
        Constant.Invalid] = true ∧
      ((3 : Nat) = 0 →
        [Constant.Invalid, Constant.Long 72340172838076673,
          Constant.Invalid] = [Constant.Invalid]) ∧
      (1 ≤ (3 : Nat) →
        ([Constant.Invalid, Constant.Long 72340172838076673,
          Constant.Invalid] : List Constant).length = 3 ∨
          (([Constant.Invalid, Constant.Long 72340172838076673,
            Constant.Invalid] : List Constant).length = 3 + 1 ∧
            ∃ c, ([Constant.Invalid,
              Constant.Long 72340172838076673,
              Constant.Invalid] : List Constant)[3 - 1]? = some c ∧
              isWideConstant c = true))) :=
  ⟨⟨by decide, by decide⟩,
   claim_C9_pool_shape.1 [0, 3, 5, 1, 1, 1, 1, 1, 1, 1, 1] 3
     [5, 1, 1, 1, 1, 1, 1, 1, 1]
     [Constant.Invalid, Constant.Long 72340172838076673,
       Constant.Invalid] [] (by decide) (by decide)⟩

/-! ## Instructions (`enums/instructions.rs`) -/

/-- `structs.rs` `LookupSwitchPair`. -/
structure LookupSwitchPair where
  value : Nat
  target : Nat
  deriving DecidableEq, Repr

/-- The `Instruction` enum, in the source's declaration order.  Branch
offsets (`i16`) and `iinc` counts (`i8`) are `Int`; unsigned operands are
`Nat`; `FConst` / `DConst` carry raw IEEE bit patterns. -/
inductive Instruction where
  | AALoad
  | AAStore
  | ALoad (index : Nat)
  | ALoadW (index : Nat)
  | ANewArray (index : Nat)
  | ANull
  | AReturn
  | ArrayLength
  | AStore (index : Nat)
  | AStoreW (index : Nat)
  | AThrow
  | BALoad
  | BAStore
  | Bipush (byte : Nat)
  | CALoad
  | CAStore
  | CheckCast (index : Nat)
  | D2F
  | D2I
  | D2L
  | DAdd
  | DALoad
  | DAStore
  | DCmpg
  | DCmpl
  | DConst (bits : Nat)
  | DDiv
  | DLoad (index : Nat)
  | DLoadW (index : Nat)
  | DMul
  | DNeg
  | DRem
  | DReturn
  | DStore (index : Nat)
  | DStoreW (index : Nat)
  | DSub
  | Dup
  | Dup2
  | Dup2X1
  | Dup2X2
  | DupX1
  | DupX2
  | F2D
  | F2I
  | F2L
  | FAdd
  | FALoad
  | FAStore
  | FCmpg
  | FCmpl
  | FConst (bits : Nat)
  | FDiv
  | FLoad (index : Nat)
  | FLoadW (index : Nat)
  | FMul
  | FNeg
  | FRem
  | FReturn
  | FStore (index : Nat)
  | FStoreW (index : Nat)
  | FSub
  | GetField (index : Nat)
  | GetStatic (index : Nat)
  | Goto (branch : Int)
  | GotoW (branch : Nat)
  | I2B
  | I2C
  | I2D
  | I2F
  | I2L
  | I2S
  | IAdd
  | IALoad
  | IAnd
  | IAStore
  | IConst (value : Int)
  | IDiv
  | IfAcmpeq (branch : Int)
  | IfAcmpne (branch : Int)
  | Ifeq (branch : Int)
  | Ifge (branch : Int)
  | Ifgt (branch : Int)
  | IfIcmpeq (branch : Int)
  | IfIcmpge (branch : Int)
  | IfIcmpgt (branch : Int)
  | IfIcmple (branch : Int)
  | IfIcmplt (branch : Int)
  | IfIcmpne (branch : Int)
  | Ifle (branch : Int)
  | Iflt (branch : Int)
  | Ifne (branch : Int)
  | IfNonNull (index : Nat)
  | IfNull (index : Nat)
  | IInc (index : Nat) (count : Int)
  | IIncW (index : Nat) (count : Nat)
  | ILoad (index : Nat)
  | ILoadW (index : Nat)
  | IMul
  | INeg
  | InstanceOf (index : Nat)
  | InvokeDynamic (index : Nat)
  | InvokeInterface (index : Nat) (count : Nat)
  | InvokeSpecial (index : Nat)
  | InvokeStatic (index : Nat)
  | InvokeVirtual (index : Nat)
  | IOr
  | IRem
  | IReturn
  | IShl
  | IShr
  | IStore (index : Nat)
  | IStoreW (index : Nat)
  | ISub
  | IUShr
  | IXor
  | Jsr (branch : Int)
  | JsrW (branch : Nat)
  | L2D
  | L2F
  | L2I
  | LAdd
  | LALoad
  | LAnd
  | LAStore
  | LCmp
  | LConst (value : Int)
  | Ldc (index : Nat)
  | Ldc2W (index : Nat)
  | LdcW (index : Nat)
  | LDiv
  | LLoad (index : Nat)
  | LLoadW (index : Nat)
  | LMul
  | LNeg
  | LookupSwitch (padding : Nat) (default : Nat)
      (pairs : List LookupSwitchPair)
  | LOr
  | LRem
  | LReturn
  | LShl
  | LShr
  | LStore (index : Nat)
  | LStoreW (index : Nat)
  | LSub
  | LUShr
  | LXor
  | MonitorEnter
  | MonitorExit
  | MultiANewArray (index : Nat) (dimensions : Nat)
  | New (index : Nat)
  | NewArray (atype : Nat)
  | Nop
  | Pop
  | Pop2
  | PutField (index : Nat)
  | PutStatic (index : Nat)
  | Ret (index : Nat)
  | RetW (index : Nat)
  | Return
  | SALoad
  | SAStore
  | Sipush (value : Int)
  | Swap
  | TableSwitch (padding : Nat) (minimum : Nat) (maximum : Nat)
      (jump_targets : List Nat) (default : Nat)
  deriving Repr

/-- `Instruction::size` from `enums/instructions.rs`, transcribed exactly
(including its `TableSwitch` arm, which adds `jump_targets.len()` rather
than `4 * jump_targets.len()`). -/
def Instruction.size : Instruction → Nat
  | .AALoad | .AAStore | .ANull | .AReturn | .ArrayLength | .AThrow
  | .BALoad | .BAStore | .CALoad | .CAStore | .D2F | .D2I | .D2L
  | .DAdd | .DALoad | .DAStore | .DCmpg | .DCmpl | .DConst _ | .DDiv
  | .DMul | .DNeg | .DRem | .DReturn | .DSub | .Dup | .Dup2 | .Dup2X1
  | .Dup2X2 | .DupX1 | .DupX2 | .F2D | .F2I | .F2L | .FAdd | .FALoad
  | .FAStore | .FCmpg | .FCmpl | .FConst _ | .FDiv | .FMul | .FNeg
  | .FRem | .FReturn | .FSub | .I2B | .I2C | .I2D | .I2F | .I2L | .I2S
  | .IAdd | .IALoad | .IAnd | .IAStore | .IConst _ | .IDiv | .IMul
  | .INeg | .IOr | .IRem | .IReturn | .IShl | .IShr | .ISub | .IUShr
  | .IXor | .L2D | .L2F | .L2I | .LAdd | .LALoad | .LAnd | .LAStore
  | .LCmp | .LConst _ | .LDiv | .LMul | .LNeg | .LOr | .LRem | .LReturn
  | .LShl | .LShr | .LSub | .LUShr | .LXor | .MonitorEnter
  | .MonitorExit | .Nop | .Pop | .Pop2 | .Return | .SALoad | .SAStore
  | .Swap => 1
  | .ALoad index | .DLoad index | .FLoad index | .ILoad index
  | .LLoad index => if index < 4 then 1 else 2
  | .AStore index | .DStore index | .FStore index | .IStore index
  | .LStore index => if index < 4 then 1 else 2
  | .Bipush _ | .Ldc _ | .NewArray _ | .Ret _ => 2
  | .ANewArray _ | .CheckCast _ | .GetField _ | .GetStatic _ | .Goto _
  | .IfAcmpeq _ | .IfAcmpne _ | .Ifeq _ | .Ifge _ | .Ifgt _
  | .IfIcmpeq _ | .IfIcmpge _ | .IfIcmpgt _ | .IfIcmple _ | .IfIcmplt _
  | .IfIcmpne _ | .Ifle _ | .Iflt _ | .Ifne _ | .IfNonNull _
  | .IfNull _ | .IInc _ _ | .InstanceOf _ | .InvokeSpecial _
  | .InvokeStatic _ | .InvokeVirtual _ | .Jsr _ | .Ldc2W _ | .LdcW _
  | .New _ | .PutField _ | .PutStatic _ | .Sipush _ => 3
  | .ALoadW _ | .AStoreW _ | .DLoadW _ | .DStoreW _ | .FLoadW _
  | .FStoreW _ | .ILoadW _ | .InvokeInterface _ _ | .IStoreW _
  | .LLoadW _ | .LStoreW _ | .MultiANewArray _ _ | .RetW _ => 4
  | .GotoW _ | .InvokeDynamic _ | .JsrW _ => 5
  | .IIncW _ _ => 6
  | .LookupSwitch padding _ pairs => 1 + padding + 8 + pairs.length * 8
  | .TableSwitch padding _ _ jump_targets _ =>
    1 + padding + 12 + jump_targets.length

/-! ## Bytecode decoder (`reader.rs` `decompile`) -/

/-- One-byte read from the bounded code cursor at `pos` (reads past the
end are the cursor's `UnexpectedEof`). -/
def cread8 (code : List Nat) (pos : Nat) : Option Nat := code[pos]?

/-- Big-endian `u16` read from the code cursor. -/
def cread16 (code : List Nat) (pos : Nat) : Option Nat := do
  let b0 ← code[pos]?
  let b1 ← code[pos + 1]?
  some (b0 * 256 + b1)

/-- Big-endian `u32` read from the code cursor. -/
def cread32 (code : List Nat) (pos : Nat) : Option Nat := do
  let h ← cread16 code pos
  let l ← cread16 code (pos + 2)
  some (h * 65536 + l)

/-- Big-endian `i16` read from the code cursor. -/
def creadI16 (code : List Nat) (pos : Nat) : Option Int := do
  let n ← cread16 code pos
  some (toSigned 16 n)

/-- The `for _ in minimum..=maximum` jump-target reads of the
`tableswitch` arm (`n` iterations starting at `pos`). -/
def creadTargets (code : List Nat) :
    Nat → Nat → Option (List Nat × Nat)
  | 0, pos => some ([], pos)
  | n + 1, pos => do
    let t ← cread32 code pos
    let (ts, pos2) ← creadTargets code n (pos + 4)
    some (t :: ts, pos2)

/-- The `for _ in 0..npairs` pair reads of the `lookupswitch` arm. -/
def creadPairs (code : List Nat) :
    Nat → Nat → Option (List LookupSwitchPair × Nat)
  | 0, pos => some ([], pos)
  | n + 1, pos => do
    let v ← cread32 code pos
    let t ← cread32 code (pos + 4)
    let (ps, pos2) ← creadPairs code n (pos + 8)
    some (⟨v, t⟩ :: ps, pos2)

/-- The opcode dispatch of `decompile` (the `match opcode` expression).
`pos` is the cursor position just after the opcode byte; `outer` is the
remaining outer stream `r`, which only the `0x84` (`iinc`) arm touches —
that arm reads its two operand bytes from `r` instead of the cursor.
Returns the instruction, the new cursor position, and the new outer
stream.  A `panic!` / failed `assert!` / `unreachable!` is `none`. -/
def decompileStep (code : List Nat) (pos : Nat) (outer : List Nat)
    (opcode : Nat) : Option (Instruction × Nat × List Nat) :=
  match opcode with
  | 0x00 => some (.Nop, pos, outer)
  | 0x01 => some (.ANull, pos, outer)
  | 0x02 => some (.IConst (-1), pos, outer)
  | 0x03 => some (.IConst 0, pos, outer)
  | 0x04 => some (.IConst 1, pos, outer)
  | 0x05 => some (.IConst 2, pos, outer)
  | 0x06 => some (.IConst 3, pos, outer)
  | 0x07 => some (.IConst 4, pos, outer)
  | 0x08 => some (.IConst 5, pos, outer)
  | 0x09 => some (.LConst 0, pos, outer)
  | 0x0A => some (.LConst 1, pos, outer)
  | 0x0B => some (.FConst 0x00000000, pos, outer)
  | 0x0C => some (.FConst 0x3F800000, pos, outer)
  | 0x0D => some (.FConst 0x40000000, pos, outer)
  | 0x0E => some (.DConst 0x0000000000000000, pos, outer)
  | 0x0F => some (.DConst 0x3FF0000000000000, pos, outer)
  | 0x10 => do
    let byte ← cread8 code pos
    some (.Bipush byte, pos + 1, outer)
  | 0x11 => do
    let short ← creadI16 code pos
    some (.Sipush short, pos + 2, outer)
  | 0x12 => do
    let index ← cread8 code pos
    some (.Ldc index, pos + 1, outer)
  | 0x13 => do
    let index ← cread16 code pos
    some (.LdcW index, pos + 2, outer)
  | 0x14 => do
    let index ← cread16 code pos
    some (.Ldc2W index, pos + 2, outer)
  | 0x15 => do
    let index ← cread8 code pos
    some (.ILoad index, pos + 1, outer)
  | 0x16 => do
    let index ← cread8 code pos
    some (.LLoad index, pos + 1, outer)
  | 0x17 => do
    let index ← cread8 code pos
    some (.FLoad index, pos + 1, outer)
  | 0x18 => do
    let index ← cread8 code pos
    some (.DLoad index, pos + 1, outer)
  | 0x19 => do
    let index ← cread8 code pos
    some (.ALoad index, pos + 1, outer)
  | 0x1A => some (.ILoad 0, pos, outer)
  | 0x1B => some (.ILoad 1, pos, outer)
  | 0x1C => some (.ILoad 2, pos, outer)
  | 0x1D => some (.ILoad 3, pos, outer)
  | 0x1E => some (.LLoad 0, pos, outer)
  | 0x1F => some (.LLoad 1, pos, outer)
  | 0x20 => some (.LLoad 2, pos, outer)
  | 0x21 => some (.LLoad 3, pos, outer)
  | 0x22 => some (.FLoad 0, pos, outer)
  | 0x23 => some (.FLoad 1, pos, outer)
  | 0x24 => some (.FLoad 2, pos, outer)
  | 0x25 => some (.FLoad 3, pos, outer)
  | 0x26 => some (.DLoad 0, pos, outer)
  | 0x27 => some (.DLoad 1, pos, outer)
  | 0x28 => some (.DLoad 2, pos, outer)
  | 0x29 => some (.DLoad 3, pos, outer)
  | 0x2A => some (.ALoad 0, pos, outer)
  | 0x2B => some (.ALoad 1, pos, outer)
  | 0x2C => some (.ALoad 2, pos, outer)
  | 0x2D => some (.ALoad 3, pos, outer)
  | 0x2E => some (.IALoad, pos, outer)
  | 0x2F => some (.LALoad, pos, outer)
  | 0x30 => some (.FALoad, pos, outer)
  | 0x31 => some (.DALoad, pos, outer)
  | 0x32 => some (.AALoad, pos, outer)
  | 0x33 => some (.BALoad, pos, outer)
  | 0x34 => some (.CALoad, pos, outer)
  | 0x35 => some (.SALoad, pos, outer)
  | 0x36 => do
    let index ← cread8 code pos
    some (.IStore index, pos + 1, outer)
  | 0x37 => do
    let index ← cread8 code pos
    some (.LStore index, pos + 1, outer)
  | 0x38 => do
    let index ← cread8 code pos
    some (.FStore index, pos + 1, outer)
  | 0x39 => do
    let index ← cread8 code pos
    some (.DStore index, pos + 1, outer)
  | 0x3A => do
    let index ← cread8 code pos
    some (.AStore index, pos + 1, outer)
  | 0x3B => some (.IStore 0, pos, outer)
  | 0x3C => some (.IStore 1, pos, outer)
  | 0x3D => some (.IStore 2, pos, outer)
  | 0x3E => some (.IStore 3, pos, outer)
  | 0x3F => some (.LStore 0, pos, outer)
  | 0x40 => some (.LStore 1, pos, outer)
  | 0x41 => some (.LStore 2, pos, outer)
  | 0x42 => some (.LStore 3, pos, outer)
  | 0x43 => some (.FStore 0, pos, outer)
  | 0x44 => some (.FStore 1, pos, outer)
  | 0x45 => some (.FStore 2, pos, outer)
  | 0x46 => some (.FStore 3, pos, outer)
  | 0x47 => some (.DStore 0, pos, outer)
  | 0x48 => some (.DStore 1, pos, outer)
  | 0x49 => some (.DStore 2, pos, outer)
  | 0x4A => some (.DStore 3, pos, outer)
  | 0x4B => some (.AStore 0, pos, outer)
  | 0x4C => some (.AStore 1, pos, outer)
  | 0x4D => some (.AStore 2, pos, outer)
  | 0x4E => some (.AStore 3, pos, outer)
  | 0x4F => some (.IAStore, pos, outer)
  | 0x50 => some (.LAStore, pos, outer)
  | 0x51 => some (.FAStore, pos, outer)
  | 0x52 => some (.DAStore, pos, outer)
  | 0x53 => some (.AAStore, pos, outer)
  | 0x54 => some (.BAStore, pos, outer)
  | 0x55 => some (.CAStore, pos, outer)
  | 0x56 => some (.SAStore, pos, outer)
  | 0x57 => some (.Pop, pos, outer)
  | 0x58 => some (.Pop2, pos, outer)
  | 0x59 => some (.Dup, pos, outer)
  | 0x5A => some (.DupX1, pos, outer)
  | 0x5B => some (.DupX2, pos, outer)
  | 0x5C => some (.Dup2, pos, outer)
  | 0x5D => some (.Dup2X1, pos, outer)
  | 0x5E => some (.Dup2X2, pos, outer)
  | 0x5F => some (.Swap, pos, outer)
  | 0x60 => some (.IAdd, pos, outer)
  | 0x61 => some (.LAdd, pos, outer)
  | 0x62 => some (.FAdd, pos, outer)
  | 0x63 => some (.DAdd, pos, outer)
  | 0x64 => some (.ISub, pos, outer)
  | 0x65 => some (.LSub, pos, outer)
  | 0x66 => some (.FSub, pos, outer)
  | 0x67 => some (.DSub, pos, outer)
  | 0x68 => some (.IMul, pos, outer)
  | 0x69 => some (.LMul, pos, outer)
  | 0x6A => some (.FMul, pos, outer)
  | 0x6B => some (.DMul, pos, outer)
  | 0x6C => some (.IDiv, pos, outer)
  | 0x6D => some (.LDiv, pos, outer)
  | 0x6E => some (.FDiv, pos, outer)
  | 0x6F => some (.DDiv, pos, outer)
  | 0x70 => some (.IRem, pos, outer)
  | 0x71 => some (.LRem, pos, outer)
  | 0x72 => some (.FRem, pos, outer)
  | 0x73 => some (.DRem, pos, outer)
  | 0x74 => some (.INeg, pos, outer)
  | 0x75 => some (.LNeg, pos, outer)
  | 0x76 => some (.FNeg, pos, outer)
  | 0x77 => some (.DNeg, pos, outer)
  | 0x78 => some (.IShl, pos, outer)
  | 0x79 => some (.LShl, pos, outer)
  | 0x7A => some (.IShr, pos, outer)
  | 0x7B => some (.LShr, pos, outer)
  | 0x7C => some (.IUShr, pos, outer)
  | 0x7D => some (.LUShr, pos, outer)
  | 0x7E => some (.IAnd, pos, outer)
  | 0x7F => some (.LAnd, pos, outer)
  | 0x80 => some (.IOr, pos, outer)
  | 0x81 => some (.LOr, pos, outer)
  | 0x82 => some (.IXor, pos, outer)
  | 0x83 => some (.LXor, pos, outer)
  | 0x84 => do
    let (index, outer) ← readU8 outer
    let (count, outer) ← readI8 outer
    some (.IInc index count, pos, outer)
  | 0x85 => some (.I2L, pos, outer)
  | 0x86 => some (.I2F, pos, outer)
  | 0x87 => some (.I2D, pos, outer)
  | 0x88 => some (.L2I, pos, outer)
  | 0x89 => some (.L2F, pos, outer)
  | 0x8A => some (.L2D, pos, outer)
  | 0x8B => some (.F2I, pos, outer)
  | 0x8C => some (.F2L, pos, outer)
  | 0x8D => some (.F2D, pos, outer)
  | 0x8E => some (.D2I, pos, outer)
  | 0x8F => some (.D2L, pos, outer)
  | 0x90 => some (.D2F, pos, outer)
  | 0x91 => some (.I2B, pos, outer)
  | 0x92 => some (.I2C, pos, outer)
  | 0x93 => some (.I2S, pos, outer)
  | 0x94 => some (.LCmp, pos, outer)
  | 0x95 => some (.FCmpl, pos, outer)
  | 0x96 => some (.FCmpg, pos, outer)
  | 0x97 => some (.DCmpl, pos, outer)
  | 0x98 => some (.DCmpg, pos, outer)
  | 0x99 => do
    let branch ← creadI16 code pos
    some (.Ifeq branch, pos + 2, outer)
  | 0x9A => do
    let branch ← creadI16 code pos
    some (.Ifne branch, pos + 2, outer)
  | 0x9B => do
    let branch ← creadI16 code pos
    some (.Iflt branch, pos + 2, outer)
  | 0x9C => do
    let branch ← creadI16 code pos
    some (.Ifge branch, pos + 2, outer)
  | 0x9D => do
    let branch ← creadI16 code pos
    some (.Ifgt branch, pos + 2, outer)
  | 0x9E => do
    let branch ← creadI16 code pos
    some (.Ifle branch, pos + 2, outer)
  | 0x9F => do
    let branch ← creadI16 code pos
    some (.IfIcmpeq branch, pos + 2, outer)
  | 0xA0 => do
    let branch ← creadI16 code pos
    some (.IfIcmpne branch, pos + 2, outer)
  | 0xA1 => do
    let branch ← creadI16 code pos
    some (.IfIcmplt branch, pos + 2, outer)
  | 0xA2 => do
    let branch ← creadI16 code pos
    some (.IfIcmpge branch, pos + 2, outer)
  | 0xA3 => do
    let branch ← creadI16 code pos
    some (.IfIcmpgt branch, pos + 2, outer)
  | 0xA4 => do
    let branch ← creadI16 code pos
    some (.IfIcmple branch, pos + 2, outer)
  | 0xA5 => do
    let branch ← creadI16 code pos
    some (.IfAcmpeq branch, pos + 2, outer)
  | 0xA6 => do
    let branch ← creadI16 code pos
    some (.IfAcmpne branch, pos + 2, outer)
  | 0xA7 => do
    let branch ← creadI16 code pos
    some (.Goto branch, pos + 2, outer)
  | 0xA8 => do
    let branch ← creadI16 code pos
    some (.Jsr branch, pos + 2, outer)
  | 0xA9 => do
    let index ← cread8 code pos
    some (.Ret index, pos + 1, outer)
  | 0xAA =>
    -- tableswitch: `pos` is the cursor position after the opcode; the
    -- stored padding is the skipped byte count `offset`.
    let offset := (4 - pos % 4) % 4
    let padding := offset
    let pos := pos + offset
    do
      let dflt ← cread32 code pos
      let minimum ← cread32 code (pos + 4)
      let maximum ← cread32 code (pos + 8)
      let n := if maximum < minimum then 0 else maximum - minimum + 1
      let (jump_targets, pos) ← creadTargets code n (pos + 12)
      -- assert_eq!(jump_targets.len() as u32, maximum - minimum + 1)
      -- with release-mode wrapping `u32` subtraction.
      if jump_targets.length % 4294967296 =
          ((maximum + 4294967296 - minimum) % 4294967296 + 1) % 4294967296
      then some (.TableSwitch padding minimum maximum jump_targets dflt,
        pos, outer)
      else none
  | 0xAB =>
    -- lookupswitch: the stored padding is the wrapping `u64` difference
    -- `offset - pos` cast to `u32` (not `offset`).
    let offset := (4 - pos % 4) % 4
    let padding :=
      ((offset + 18446744073709551616 - pos) % 18446744073709551616) %
        4294967296
    let pos := pos + offset
    do
      let dflt ← cread32 code pos
      let npairs ← cread32 code (pos + 4)
      let (pairs, pos) ← creadPairs code npairs (pos + 8)
      some (.LookupSwitch padding dflt pairs, pos, outer)
  | 0xAC => some (.IReturn, pos, outer)
  | 0xAD => some (.LReturn, pos, outer)
  | 0xAE => some (.FReturn, pos, outer)
  | 0xAF => some (.DReturn, pos, outer)
  | 0xB0 => some (.AReturn, pos, outer)
  | 0xB1 => some (.Return, pos, outer)
  | 0xB2 => do
    let index ← cread16 code pos
    some (.GetStatic index, pos + 2, outer)
  | 0xB3 => do
    let index ← cread16 code pos
    some (.PutStatic index, pos + 2, outer)
  | 0xB4 => do
    let index ← cread16 code pos
    some (.GetField index, pos + 2, outer)
  | 0xB5 => do
    let index ← cread16 code pos
    some (.PutField index, pos + 2, outer)
  | 0xB6 => do
    let index ← cread16 code pos
    some (.InvokeVirtual index, pos + 2, outer)
  | 0xB7 => do
    let index ← cread16 code pos
    some (.InvokeSpecial index, pos + 2, outer)
  | 0xB8 => do
    let index ← cread16 code pos
    some (.InvokeStatic index, pos + 2, outer)
  | 0xB9 => do
    let index ← cread16 code pos
    let count ← cread8 code (pos + 2)
    some (.InvokeInterface index count, pos + 3, outer)
  | 0xBA => do
    let index ← cread16 code pos
    let zeroWord ← cread16 code (pos + 2)
    if zeroWord = 0 then some (.InvokeDynamic index, pos + 4, outer)
    else none
  | 0xBB => do
    let index ← cread16 code pos
    some (.New index, pos + 2, outer)
  | 0xBC => do
    let atype ← cread8 code pos
    some (.NewArray atype, pos + 1, outer)
  | 0xBD => do
    let index ← cread16 code pos
    some (.ANewArray index, pos + 2, outer)
  | 0xBE => some (.ArrayLength, pos, outer)
  | 0xBF => some (.AThrow, pos, outer)
  | 0xC0 => do
    let index ← cread16 code pos
    some (.CheckCast index, pos + 2, outer)
  | 0xC1 => do
    let index ← cread16 code pos
    some (.InstanceOf index, pos + 2, outer)
  | 0xC2 => some (.MonitorEnter, pos, outer)
  | 0xC3 => some (.MonitorExit, pos, outer)
  | 0xC4 => do
    let opcode2 ← cread8 code pos
    let index ← cread16 code (pos + 1)
    match opcode2 with
    | 0x15 => some (.ILoadW index, pos + 3, outer)
    | 0x16 => some (.LLoadW index, pos + 3, outer)
    | 0x17 => some (.FLoadW index, pos + 3, outer)
    | 0x18 => some (.DLoadW index, pos + 3, outer)
    | 0x19 => some (.ALoadW index, pos + 3, outer)
    | 0x36 => some (.IStoreW index, pos + 3, outer)
    | 0x37 => some (.LStoreW index, pos + 3, outer)
    | 0x38 => some (.FStoreW index, pos + 3, outer)
    | 0x39 => some (.DStoreW index, pos + 3, outer)
    | 0x3A => some (.AStoreW index, pos + 3, outer)
    | 0xA9 => some (.RetW index, pos + 3, outer)
    | 0x84 => do
      let count ← cread16 code (pos + 3)
      some (.IIncW index count, pos + 5, outer)
    | _ => none
  | 0xC5 => do
    let index ← cread16 code pos
    let dimensions ← cread8 code (pos + 2)
    some (.MultiANewArray index dimensions, pos + 3, outer)
  | 0xC6 => do
    let index ← cread16 code pos
    some (.IfNull index, pos + 2, outer)
  | 0xC7 => do
    let index ← cread16 code pos
    some (.IfNonNull index, pos + 2, outer)
  | 0xC8 => do
    let branch ← cread32 code pos
    some (.GotoW branch, pos + 4, outer)
  | 0xC9 => do
    let branch ← cread32 code pos
    some (.JsrW branch, pos + 4, outer)
  | _ => none

/-- The `while cursor position < code_length` loop of `decompile`.  Each
iteration consumes at least the opcode byte from the cursor, so any
`fuel > code.length` gives the source's behavior. -/
def decompileLoop (code : List Nat) :
    Nat → Nat → List Nat → List Instruction →
    Option (List Instruction × List Nat)
  | fuel, pos, outer, acc =>
    if pos < code.length then
      match fuel with
      | 0 => none
      | fuel + 1 => do
        let opcode ← cread8 code pos
        let (inst, pos, outer) ← decompileStep code (pos + 1) outer opcode
        decompileLoop code fuel pos outer (acc ++ [inst])
    else some (acc, outer)

/-- `reader.rs` `decompile`: read `code_length`, wrap that many bytes in a
bounded cursor starting at offset 0, and disassemble.  Returns the
instructions and the remaining outer stream. -/
def decompile (s : List Nat) : Option (List Instruction × List Nat) := do
  let (code_length, s) ← readU32 s
  let (code, s) := readBuff code_length s
  decompileLoop code (code.length + 1) 0 s []

/-! ## Bytecode encoder (`writer.rs` `compile`) -/

/-- IEEE `f == 0.0` on raw `f32` bits (also true for negative zero). -/
def f32IsZero (bits : Nat) : Bool := bits == 0 || bits == 0x80000000

/-- IEEE `f == 1.0` on raw `f32` bits. -/
def f32IsOne (bits : Nat) : Bool := bits == 0x3F800000

/-- IEEE `f == 2.0` on raw `f32` bits. -/
def f32IsTwo (bits : Nat) : Bool := bits == 0x40000000

/-- IEEE `d == 0.0` on raw `f64` bits (also true for negative zero). -/
def f64IsZero (bits : Nat) : Bool :=
  bits == 0 || bits == 0x8000000000000000

/-- IEEE `d == 1.0` on raw `f64` bits. -/
def f64IsOne (bits : Nat) : Bool := bits == 0x3FF0000000000000

/-- The per-instruction body of `compile`'s `match inst`.  `none` models
the `unreachable!` panics (out-of-range short-form constants, and
`Instruction::Ret`, which has no arm of its own and falls into the
wide-prefix catch-all where no wide variant matches).  Note two faithful
transcriptions of source slips: the `TableSwitch` arm emits opcode `0xA9`
(not `0xAA`), and the wide-prefix catch-all emits `0xC9` (not `0xC4`). -/
def compileInst : Instruction → Option (List Nat)
  | .Nop => some [0x00]
  | .ANull => some [0x01]
  | .IConst i =>
    if i = -1 then some [0x02]
    else if i = 0 then some [0x03]
    else if i = 1 then some [0x04]
    else if i = 2 then some [0x05]
    else if i = 3 then some [0x06]
    else if i = 4 then some [0x07]
    else if i = 5 then some [0x08]
    else none
  | .LConst l =>
    if l = 0 then some [0x09]
    else if l = 1 then some [0x0A]
    else none
  | .FConst f =>
    if f32IsZero f then some [0x0B]
    else if f32IsOne f then some [0x0C]
    else if f32IsTwo f then some [0x0D]
    else none
  | .DConst d =>
    if f64IsZero d then some [0x0E]
    else if f64IsOne d then some [0x0F]
    else none
  | .Bipush index => some ([0x10] ++ writeU8 index)
  | .Sipush index => some ([0x11] ++ writeI16 index)
  | .Ldc index => some ([0x12] ++ writeU8 index)
  | .LdcW index => some ([0x13] ++ writeU16 index)
  | .Ldc2W index => some ([0x14] ++ writeU16 index)
  | .ILoad index =>
    match index with
    | 0 => some [0x1A]
    | 1 => some [0x1B]
    | 2 => some [0x1C]
    | 3 => some [0x1D]
    | _ => some ([0x15] ++ writeU8 index)
  | .LLoad index =>
    match index with
    | 0 => some [0x1E]
    | 1 => some [0x1F]
    | 2 => some [0x20]
    | 3 => some [0x21]
    | _ => some ([0x16] ++ writeU8 index)
  | .FLoad index =>
    match index with
    | 0 => some [0x22]
    | 1 => some [0x23]
    | 2 => some [0x24]
    | 3 => some [0x25]
    | _ => some ([0x17] ++ writeU8 index)
  | .DLoad index =>
    match index with
    | 0 => some [0x26]
    | 1 => some [0x27]
    | 2 => some [0x28]
    | 3 => some [0x29]
    | _ => some ([0x18] ++ writeU8 index)
  | .ALoad index =>
    match index with
    | 0 => some [0x2A]
    | 1 => some [0x2B]
    | 2 => some [0x2C]
    | 3 => some [0x2D]
    | _ => some ([0x19] ++ writeU8 index)
  | .IALoad => some [0x2E]
  | .LALoad => some [0x2F]
  | .FALoad => some [0x30]
  | .DALoad => some [0x31]
  | .AALoad => some [0x32]
  | .BALoad => some [0x33]
  | .CALoad => some [0x34]
  | .SALoad => some [0x35]
  | .IStore index =>
    match index with
    | 0 => some [0x3B]
    | 1 => some [0x3C]
    | 2 => some [0x3D]
    | 3 => some [0x3E]
    | _ => some ([0x36] ++ writeU8 index)
  | .LStore index =>
    match index with
    | 0 => some [0x3F]
    | 1 => some [0x40]
    | 2 => some [0x41]
    | 3 => some [0x42]
    | _ => some ([0x37] ++ writeU8 index)
  | .FStore index =>
    match index with
    | 0 => some [0x43]
    | 1 => some [0x44]
    | 2 => some [0x45]
    | 3 => some [0x46]
    | _ => some ([0x38] ++ writeU8 index)
  | .DStore index =>
    match index with
    | 0 => some [0x47]
    | 1 => some [0x48]
    | 2 => some [0x49]
    | 3 => some [0x4A]
    | _ => some ([0x39] ++ writeU8 index)
  | .AStore index =>
    match index with
    | 0 => some [0x4B]
    | 1 => some [0x4C]
    | 2 => some [0x4D]
    | 3 => some [0x4E]
    | _ => some ([0x3A] ++ writeU8 index)
  | .IAStore => some [0x4F]
  | .LAStore => some [0x50]
  | .FAStore => some [0x51]
  | .DAStore => some [0x52]
  | .AAStore => some [0x53]
  | .BAStore => some [0x54]
  | .CAStore => some [0x55]
  | .SAStore => some [0x56]
  | .Pop => some [0x57]
  | .Pop2 => some [0x58]
  | .Dup => some [0x59]
  | .DupX1 => some [0x5A]
  | .DupX2 => some [0x5B]
  | .Dup2 => some [0x5C]
  | .Dup2X1 => some [0x5D]
  | .Dup2X2 => some [0x5E]
  | .Swap => some [0x5F]
  | .IAdd => some [0x60]
  | .LAdd => some [0x61]
  | .FAdd => some [0x62]
  | .DAdd => some [0x63]
  | .ISub => some [0x64]
  | .LSub => some [0x65]
  | .FSub => some [0x66]
  | .DSub => some [0x67]
  | .IMul => some [0x68]
  | .LMul => some [0x69]
  | .FMul => some [0x6A]
  | .DMul => some [0x6B]
  | .IDiv => some [0x6C]
  | .LDiv => some [0x6D]
  | .FDiv => some [0x6E]
  | .DDiv => some [0x6F]
  | .IRem => some [0x70]
  | .LRem => some [0x71]
  | .FRem => some [0x72]
  | .DRem => some [0x73]
  | .INeg => some [0x74]
  | .LNeg => some [0x75]
  | .FNeg => some [0x76]
  | .DNeg => some [0x77]
  | .IShl => some [0x78]
  | .LShl => some [0x79]
  | .IShr => some [0x7A]
  | .LShr => some [0x7B]
  | .IUShr => some [0x7C]
  | .LUShr => some [0x7D]
  | .IAnd => some [0x7E]
  | .LAnd => some [0x7F]
  | .IOr => some [0x80]
  | .LOr => some [0x81]
  | .IXor => some [0x82]
  | .LXor => some [0x83]
  | .IInc index count => some ([0x84] ++ writeU8 index ++ writeI8 count)
  | .I2L => some [0x85]
  | .I2F => some [0x86]
  | .I2D => some [0x87]
  | .L2I => some [0x88]
  | .L2F => some [0x89]
  | .L2D => some [0x8A]
  | .F2I => some [0x8B]
  | .F2L => some [0x8C]
  | .F2D => some [0x8D]
  | .D2I => some [0x8E]
  | .D2L => some [0x8F]
  | .D2F => some [0x90]
  | .I2B => some [0x91]
  | .I2C => some [0x92]
  | .I2S => some [0x93]
  | .LCmp => some [0x94]
  | .FCmpl => some [0x95]
  | .FCmpg => some [0x96]
  | .DCmpl => some [0x97]
  | .DCmpg => some [0x98]
  | .Ifeq branch => some ([0x99] ++ writeI16 branch)
  | .Ifne branch => some ([0x9A] ++ writeI16 branch)
  | .Iflt branch => some ([0x9B] ++ writeI16 branch)
  | .Ifge branch => some ([0x9C] ++ writeI16 branch)
  | .Ifgt branch => some ([0x9D] ++ writeI16 branch)
  | .Ifle branch => some ([0x9E] ++ writeI16 branch)
  | .IfIcmpeq branch => some ([0x9F] ++ writeI16 branch)
  | .IfIcmpne branch => some ([0xA0] ++ writeI16 branch)
  | .IfIcmplt branch => some ([0xA1] ++ writeI16 branch)
  | .IfIcmpge branch => some ([0xA2] ++ writeI16 branch)
  | .IfIcmpgt branch => some ([0xA3] ++ writeI16 branch)
  | .IfIcmple branch => some ([0xA4] ++ writeI16 branch)
  | .IfAcmpeq branch => some ([0xA5] ++ writeI16 branch)
  | .IfAcmpne branch => some ([0xA6] ++ writeI16 branch)
  | .Goto branch => some ([0xA7] ++ writeI16 branch)
  | .Jsr branch => some ([0xA8] ++ writeI16 branch)
  | .TableSwitch padding minimum maximum jump_targets dflt =>
    some ([0xA9] ++ List.replicate padding 0 ++ writeU32 dflt ++
      writeU32 minimum ++ writeU32 maximum ++
      jump_targets.flatMap writeU32)
  | .LookupSwitch padding dflt pairs =>
    some ([0xAB] ++ List.replicate padding 0 ++ writeU32 dflt ++
      writeU32 pairs.length ++
      pairs.flatMap (fun p => writeU32 p.value ++ writeU32 p.target))
  | .IReturn => some [0xAC]
  | .LReturn => some [0xAD]
  | .FReturn => some [0xAE]
  | .DReturn => some [0xAF]
  | .AReturn => some [0xB0]
  | .Return => some [0xB1]
  | .GetStatic index => some ([0xB2] ++ writeU16 index)
  | .PutStatic index => some ([0xB3] ++ writeU16 index)
  | .GetField index => some ([0xB4] ++ writeU16 index)
  | .PutField index => some ([0xB5] ++ writeU16 index)
  | .InvokeVirtual index => some ([0xB6] ++ writeU16 index)
  | .InvokeSpecial index => some ([0xB7] ++ writeU16 index)
  | .InvokeStatic index => some ([0xB8] ++ writeU16 index)
  | .InvokeInterface index count =>
    some ([0xB9] ++ writeU16 index ++ writeU8 count)
  | .InvokeDynamic index =>
    some ([0xBA] ++ writeU16 index ++ writeU16 0)
  | .New index => some ([0xBB] ++ writeU16 index)
  | .NewArray atype => some ([0xBC] ++ writeU8 atype)
  | .ANewArray index => some ([0xBD] ++ writeU16 index)
  | .ArrayLength => some [0xBE]
  | .AThrow => some [0xBF]
  | .CheckCast index => some ([0xC0] ++ writeU16 index)
  | .InstanceOf index => some ([0xC1] ++ writeU16 index)
  | .MonitorEnter => some [0xC2]
  | .MonitorExit => some [0xC3]
  | .MultiANewArray index dimensions =>
    some ([0xC5] ++ writeU16 index ++ writeU8 dimensions)
  | .IfNull index => some ([0xC6] ++ writeU16 index)
  | .IfNonNull index => some ([0xC7] ++ writeU16 index)
  | .GotoW branch => some ([0xC8] ++ writeU32 branch)
  | .JsrW branch => some ([0xC9] ++ writeU32 branch)
  | .ILoadW index => some ([0xC9, 0x15] ++ writeU16 index)
  | .LLoadW index => some ([0xC9, 0x16] ++ writeU16 index)
  | .FLoadW index => some ([0xC9, 0x17] ++ writeU16 index)
  | .DLoadW index => some ([0xC9, 0x18] ++ writeU16 index)
  | .ALoadW index => some ([0xC9, 0x19] ++ writeU16 index)
  | .IStoreW index => some ([0xC9, 0x36] ++ writeU16 index)
  | .LStoreW index => some ([0xC9, 0x37] ++ writeU16 index)
  | .FStoreW index => some ([0xC9, 0x38] ++ writeU16 index)
  | .DStoreW index => some ([0xC9, 0x39] ++ writeU16 index)
  | .AStoreW index => some ([0xC9, 0x3A] ++ writeU16 index)
  | .RetW index => some ([0xC9, 0xA9] ++ writeU16 index)
  | .IIncW index count =>
    some ([0xC9, 0x84] ++ writeU16 index ++ writeU16 count)
  | .Ret _ => none

/-- The instruction loop of `compile` (byte concatenation in order). -/
def compileBody : List Instruction → Option (List Nat)
  | [] => some []
  | inst :: rest => do
    let b ← compileInst inst
    let bs ← compileBody rest
    some (b ++ bs)

/-- `writer.rs` `compile`: the body prefixed by its backpatched `u32`
length. -/
def compile (code : List Instruction) : Option (List Nat) := do
  let body ← compileBody code
  some (writeU32 body.length ++ body)

/-- C2: in a `Code` block whose `lookupswitch` opcode sits at `pc = 0`,
the decoder stores `padding = 2` on the instruction, while the claimed
formula gives `(4 - ((0 + 1) % 4)) % 4 = 3` — the `lookupswitch` arm
computes `offset - pos` instead of `offset`.  The sibling `tableswitch`
arm (second conjunct, opcode at `pc = 0`) does store the claimed value. -/
theorem claim_C2_lookupswitch_padding :
    decompile [0, 0, 0, 12, 0xAB, 0, 0, 0, 0, 0, 0, 0, 0, 0, 0, 0] =
      some ([Instruction.LookupSwitch 2 0 []], []) ∧
    (2 : Nat) ≠ (4 - ((0 + 1) % 4)) % 4 ∧
    decompile [0, 0, 0, 16, 0xAA, 0, 0, 0, 0, 0, 0, 0,
        0, 0, 0, 1, 0, 0, 0, 0] =
      some ([Instruction.TableSwitch 3 1 0 [] 0], []) ∧
    (3 : Nat) = (4 - ((0 + 1) % 4)) % 4 :=
  ⟨rfl, by decide, rfl, by decide⟩

/-- C3: the encoder emits `C9 84 01 2C FF FB` for `IIncW(300, 0xFFFB)` —
first byte `0xC9` (`jsr_w`), not the claimed wide prefix `0xC4` — while
`size` does return 6.  (`compile` prefixes the code block with its `u32`
length, here 6.) -/
theorem claim_C3_wide_iinc_encoding :
    compile [Instruction.IIncW 300 0xFFFB] =
      some [0, 0, 0, 6, 0xC9, 0x84, 0x01, 0x2C, 0xFF, 0xFB] ∧
    (Instruction.IIncW 300 0xFFFB).size = 6 ∧
    ([0xC9, 0x84, 0x01, 0x2C, 0xFF, 0xFB] : List Nat) ≠
      [0xC4, 0x84, 0x01, 0x2C, 0xFF, 0xFB] :=
  ⟨rfl, rfl, by decide⟩

/-- C5: `size` of a one-target `TableSwitch` with zero padding is
`1 + 0 + 12 + 1 = 14`, but the encoder produces 17 instruction bytes
(`1 + 0 + 12 + 4·1`, as the claim requires) — `size`'s `TableSwitch` arm
drops the factor 4 on the jump table.  Additionally `Ret` has
`size = 2` but no encoder arm at all (the wide catch-all panics). -/
theorem claim_C5_tableswitch_size :
    (Instruction.TableSwitch 0 0 0 [7] 0).size = 14 ∧
    compile [Instruction.TableSwitch 0 0 0 [7] 0] =
      some [0, 0, 0, 17, 0xA9, 0, 0, 0, 0, 0, 0, 0, 0,
        0, 0, 0, 0, 0, 0, 0, 7] ∧
    (14 : Nat) ≠ 17 ∧
    (1 + 0 + 12 + 4 * 1 : Nat) = 17 ∧
    (Instruction.Ret 0).size = 2 ∧
    compileInst (Instruction.Ret 0) = none :=
  ⟨rfl, rfl, by decide, by decide, rfl, rfl⟩

/-- C7: a `Code` block `[0x84, 0x01, 0x05]` (`iinc 1 5`) followed by the
outer-stream bytes `[0xAA, 0xBB]` decodes with the `iinc` operands taken
from the OUTER stream (`IInc 170 (-69)`, consuming `0xAA 0xBB` from `r`),
after which the unconsumed code bytes `0x01 0x05` are decoded as further
opcodes — not the claimed `IInc(1, 5)` read from the code array (which
would leave the outer bytes `[0xAA, 0xBB]` in place). -/
theorem claim_C7_iinc_reads_outer_stream :
    decompile [0, 0, 0, 3, 0x84, 0x01, 0x05, 0xAA, 0xBB] =
      some ([Instruction.IInc 170 (-69), Instruction.ANull,
        Instruction.IConst 2], []) ∧
    (some ([Instruction.IInc 170 (-69), Instruction.ANull,
        Instruction.IConst 2], ([] : List Nat)) ≠
      some ([Instruction.IInc 1 5], [0xAA, 0xBB])) :=
  ⟨rfl, by
    intro h
    simp only [Option.some.injEq, Prod.mk.injEq, List.cons.injEq] at h
    exact List.noConfusion h.1.2⟩

/-! ## Attribute name strings (as UTF-8 byte lists) -/

/-- The bytes of the attribute name string for `ConstantValue`. -/
def strConstantValue : List Nat :=
  [67, 111, 110, 115, 116, 97, 110, 116, 86, 97, 108, 117, 101]

/-- The bytes of the attribute name string for `Code`. -/
def strCode : List Nat := [67, 111, 100, 101]

/-- The bytes of the attribute name string for `StackMapTable`. -/
def strStackMapTable : List Nat :=
  [83, 116, 97, 99, 107, 77, 97, 112, 84, 97, 98, 108, 101]

/-- The bytes of the attribute name string for `Exceptions`. -/
def strExceptions : List Nat :=
  [69, 120, 99, 101, 112, 116, 105, 111, 110, 115]

/-- The bytes of the attribute name string for `InnerClasses`. -/
def strInnerClasses : List Nat :=
  [73, 110, 110, 101, 114, 67, 108, 97, 115, 115, 101, 115]

/-- The bytes of the attribute name string for `EnclosingMethod`. -/
def strEnclosingMethod : List Nat :=
  [69, 110, 99, 108, 111, 115, 105, 110, 103, 77, 101, 116, 104, 111, 100]

/-- The bytes of the attribute name string for `Synthetic`. -/
def strSynthetic : List Nat := [83, 121, 110, 116, 104, 101, 116, 105, 99]

/-- The bytes of the attribute name string for `Signature`. -/
def strSignature : List Nat := [83, 105, 103, 110, 97, 116, 117, 114, 101]

/-- The bytes of the attribute name string for `SourceFile`. -/
def strSourceFile : List Nat :=
  [83, 111, 117, 114, 99, 101, 70, 105, 108, 101]

/-- The bytes of the attribute name string for `SourceDebugExtension`. -/
def strSourceDebugExtension : List Nat :=
  [83, 111, 117, 114, 99, 101, 68, 101, 98, 117, 103, 69, 120, 116, 101,
   110, 115, 105, 111, 110]

/-- The bytes of the attribute name string for `LineNumberTable`. -/
def strLineNumberTable : List Nat :=
  [76, 105, 110, 101, 78, 117, 109, 98, 101, 114, 84, 97, 98, 108, 101]

/-- The bytes of the attribute name string for `LocalVariableTable`. -/
def strLocalVariableTable : List Nat :=
  [76, 111, 99, 97, 108, 86, 97, 114, 105, 97, 98, 108, 101, 84, 97, 98,
   108, 101]

/-- The bytes of the attribute name string for `LocalVariableTypeTable`. -/
def strLocalVariableTypeTable : List Nat :=
  [76, 111, 99, 97, 108, 86, 97, 114, 105, 97, 98, 108, 101, 84, 121, 112,
   101, 84, 97, 98, 108, 101]

/-- The bytes of the attribute name string for `Deprecated`. -/
def strDeprecated : List Nat :=
  [68, 101, 112, 114, 101, 99, 97, 116, 101, 100]

/-- The bytes of the attribute name string for `RuntimeVisibleAnnotations`. -/
def strRuntimeVisibleAnnots : List Nat :=
  [82, 117, 110, 116, 105, 109, 101, 86, 105, 115, 105, 98, 108, 101, 65,
   110, 110, 111, 116, 97, 116, 105, 111, 110, 115]

/-- The bytes of the attribute name string for `RuntimeInvisibleAnnotations`. -/
def strRuntimeInvisibleAnnots : List Nat :=
  [82, 117, 110, 116, 105, 109, 101, 73, 110, 118, 105, 115, 105, 98, 108,
   101, 65, 110, 110, 111, 116, 97, 116, 105, 111, 110, 115]

/-- The bytes of the attribute name string for `RuntimeVisibleParameterAnnotations`. -/
def strRuntimeVisibleParameterAnnots : List Nat :=
  [82, 117, 110, 116, 105, 109, 101, 86, 105, 115, 105, 98, 108, 101, 80,
   97, 114, 97, 109, 101, 116, 101, 114, 65, 110, 110, 111, 116, 97, 116,
   105, 111, 110, 115]

/-- The bytes of the attribute name string for `RuntimeInvisibleParameterAnnotations`. -/
def strRuntimeInvisibleParameterAnnots : List Nat :=
  [82, 117, 110, 116, 105, 109, 101, 73, 110, 118, 105, 115, 105, 98, 108,
   101, 80, 97, 114, 97, 109, 101, 116, 101, 114, 65, 110, 110, 111, 116,
   97, 116, 105, 111, 110, 115]

/-- The bytes of the attribute name string for `AnnotationDefault`. -/
def strAnnotDefault : List Nat :=
  [65, 110, 110, 111, 116, 97, 116, 105, 111, 110, 68, 101, 102, 97, 117,
   108, 116]

/-- The bytes of the attribute name string for `BootstrapMethods`. -/
def strBootstrapMethods : List Nat :=
  [66, 111, 111, 116, 115, 116, 114, 97, 112, 77, 101, 116, 104, 111, 100,
   115]

/-- The bytes of the attribute name string for `MethodParameters`. -/
def strMethodParameters : List Nat :=
  [77, 101, 116, 104, 111, 100, 80, 97, 114, 97, 109, 101, 116, 101, 114,
   115]

/-- The bytes of the attribute name string for `Module`. -/
def strModule : List Nat := [77, 111, 100, 117, 108, 101]

/-- The bytes of the attribute name string for `ModuleMainClass`. -/
def strModuleMainClass : List Nat :=
  [77, 111, 100, 117, 108, 101, 77, 97, 105, 110, 67, 108, 97, 115, 115]

/-- The bytes of the attribute name string for `ModulePackages`. -/
def strModulePackages : List Nat :=
  [77, 111, 100, 117, 108, 101, 80, 97, 99, 107, 97, 103, 101, 115]

/-- The bytes of the attribute name string for `NestHost`. -/
def strNestHost : List Nat := [78, 101, 115, 116, 72, 111, 115, 116]

/-- The bytes of the attribute name string for `NestMembers`. -/
def strNestMembers : List Nat :=
  [78, 101, 115, 116, 77, 101, 109, 98, 101, 114, 115]

/-- The bytes of the attribute name string for `PermittedSubclasses`. -/
def strPermittedSubclasses : List Nat :=
  [80, 101, 114, 109, 105, 116, 116, 101, 100, 83, 117, 98, 99, 108, 97,
   115, 115, 101, 115]

/-- The bytes of the attribute name string for `Record`. -/
def strRecord : List Nat := [82, 101, 99, 111, 114, 100]

/-- The bytes of the attribute name string for `RuntimeInvisibleTypeAnnotations`. -/
def strRuntimeInvisibleTypeAnnots : List Nat :=
  [82, 117, 110, 116, 105, 109, 101, 73, 110, 118, 105, 115, 105, 98, 108,
   101, 84, 121, 112, 101, 65, 110, 110, 111, 116, 97, 116, 105, 111, 110,
   115]

/-- The bytes of the attribute name string for `RuntimeVisibleTypeAnnotations`. -/
def strRuntimeVisibleTypeAnnots : List Nat :=
  [82, 117, 110, 116, 105, 109, 101, 86, 105, 115, 105, 98, 108, 101, 84,
   121, 112, 101, 65, 110, 110, 111, 116, 97, 116, 105, 111, 110, 115]

/-! ## Data model (`structs.rs`, `enums/mod.rs`, `errors.rs`) -/

/-- `errors.rs` `JavaError`.  The `ConstantTypeError` message is the
`format!` string; no theorem inspects the message text. -/
inductive JavaError where
  | ConstantTypeError (msg : String)
  | InvalidConstantId (id : Nat)
  | StringNotFound
  deriving DecidableEq, Repr

/-- `enums/mod.rs` `VerificationType`. -/
inductive VerificationType where
  | Double
  | Float
  | Integer
  | Long
  | Null
  | Object (cpool_index : Nat)
  | Top
  | Uninitialized (offset : Nat)
  | UninitializedThis
  deriving DecidableEq, Repr

/-- `enums/mod.rs` `StackMapFrameType`. -/
inductive StackMapFrameType where
  | AppendFrame (frame_type : Nat)
  | ChopFrame (frame_type : Nat)
  | FullFrame
  | SameFrame (frame_type : Nat)
  | SameFrameExtended
  | SameLocals1StackItemFrame (frame_type : Nat)
  | SameLocals1StackItemFrameExtended
  deriving DecidableEq, Repr

/-- `structs.rs` `StackMapFrame`. -/
structure StackMapFrame where
  frame_type : StackMapFrameType
  offset_delta : Nat
  locals : List VerificationType
  stack : List VerificationType
  deriving DecidableEq, Repr

/-- `ExceptionTableEntry` as read by `reader.rs` and re-exported by
`lib.rs` (the snapshot's `structs.rs` no longer declares it — one face of
the `Code`/`exception_table` inconsistency recorded in the design notes). -/
structure ExceptionTableEntry where
  start_pc : Nat
  end_pc : Nat
  handler_pc : Nat
  catch_type : Nat
  deriving DecidableEq, Repr

/-- `structs.rs` `LineNumber`. -/
structure LineNumber where
  start_pc : Nat
  line_number : Nat
  deriving DecidableEq, Repr

/-- `structs.rs` `InnerClass`. -/
structure InnerClass where
  inner_class_info_index : Nat
  outer_class_info_index : Nat
  inner_name_index : Nat
  inner_class_access_flags : List AccessFlag
  deriving DecidableEq, Repr

/-- `structs.rs` `LocalVariable`. -/
structure LocalVariable where
  start_pc : Nat
  length : Nat
  name_index : Nat
  descriptor_index : Nat
  index : Nat
  deriving DecidableEq, Repr

/-- `structs.rs` `LocalVariableType`. -/
structure LocalVariableType where
  start_pc : Nat
  length : Nat
  name_index : Nat
  signature_index : Nat
  index : Nat
  deriving DecidableEq, Repr

/-- `structs.rs` `MethodParameter`. -/
structure MethodParameter where
  name_index : Nat
  access_flags : List AccessFlag
  deriving DecidableEq, Repr

/-- `structs.rs` `ModuleRequires`. -/
structure ModuleRequires where
  requires_index : Nat
  requires_flags : List AccessFlag
  requires_version_index : Nat
  deriving DecidableEq, Repr

/-- `structs.rs` `ModuleExports`. -/
structure ModuleExports where
  exports_index : Nat
  exports_flags : List AccessFlag
  exports_to_index : List Nat
  deriving DecidableEq, Repr

/-- `structs.rs` `ModuleOpens`. -/
structure ModuleOpens where
  opens_index : Nat
  opens_flags : List AccessFlag
  opens_to_index : List Nat
  deriving DecidableEq, Repr

/-- `structs.rs` `ModuleProvides`. -/
structure ModuleProvides where
  provides_index : Nat
  provides_with_index : List Nat
  deriving DecidableEq, Repr

/-- `structs.rs` `BootstrapMethod`. -/
structure BootstrapMethod where
  bootstrap_method_ref : Nat
  bootstrap_arguments : List Nat
  deriving DecidableEq, Repr

/-- `structs.rs` `LocalVar`. -/
structure LocalVar where
  start_pc : Nat
  length : Nat
  index : Nat
  deriving DecidableEq, Repr

/-- `structs.rs` `TypePath`. -/
structure TypePath where
  type_path_kind : Nat
  type_argument_index : Nat
  deriving DecidableEq, Repr

/-- `enums/mod.rs` `TargetInfo`. -/
inductive TargetInfo where
  | TypeParameter (target_type : Nat) (type_parameter_index : Nat)
  | Supertype (supertype_index : Nat)
  | TypeParameterBound (target_type : Nat) (type_parameter_index : Nat)
      (bound_index : Nat)
  | Empty (target_type : Nat)
  | FormalParameter (formal_parameter_index : Nat)
  | Throws (throws_type_index : Nat)
  | Localvar (target_type : Nat) (table : List LocalVar)
  | Catch (exception_table_index : Nat)
  | Offset (target_type : Nat) (offset : Nat)
  | TypeArgument (target_type : Nat) (offset : Nat)
      (type_argument_index : Nat)
  deriving DecidableEq, Repr

/-!
`enums/mod.rs` `ElementValue`, `structs.rs` `Annotation` (`Annot` here)
and `ElementValuePair`, as one mutual nest.
-/
mutual
inductive ElementValue where
  | AnnotValue (a : Annot)
  | ArrayValue (values : List ElementValue)
  | ClassInfoIndex (class_info_index : Nat)
  | ConstValueIndex (tag : Nat) (const_value_index : Nat)
  | EnumConstValue (type_name_index : Nat) (const_name_index : Nat)
  deriving Repr
inductive Annot where
  | mk (type_index : Nat) (element_value_pairs : List ElementValuePair)
  deriving Repr
inductive ElementValuePair where
  | mk (element_name_index : Nat) (value : ElementValue)
  deriving Repr
end

/-- `structs.rs` `TypeAnnotation` (field `annotation` is `annot` here). -/
structure TypeAnnot where
  target_info : TargetInfo
  target_path : List TypePath
  annot : Annot
  deriving Repr

/-!
`enums/mod.rs` `Attribute` and `structs.rs` `RecordComponent`.

On `Code`: the snapshot is internally inconsistent — `reader.rs`
constructs `Attribute::Code` with an `exception_table` field (and `lib.rs`
re-exports `ExceptionTableEntry`), while `enums/mod.rs` declares `Code`
without that field and `writer.rs` matches it without the field and
writes a constant 0 for `exception_table_length`.  The model carries the
field so both sides can be embedded: the reader below populates it and
the writer below ignores it, each exactly as its source file does.
-/
mutual
inductive Attribute where
  | AnnotDefault (element_value : ElementValue)
  | BootstrapMethods (bootstrap_methods : List BootstrapMethod)
  | Code (code : List Instruction) (max_stack : Nat) (max_locals : Nat)
      (exception_table : List ExceptionTableEntry)
      (attributes : List Attribute)
  | ConstantValue (constantvalue_index : Nat)
  | Deprecated
  | EnclosingMethod (class_index : Nat) (method_index : Nat)
  | Exceptions (exceptions : List Nat)
  | InnerClasses (inner_classes : List InnerClass)
  | LineNumberTable (line_number_table : List LineNumber)
  | LocalVariableTable (local_variable_table : List LocalVariable)
  | LocalVariableTypeTable
      (local_variable_type_table : List LocalVariableType)
  | MethodParameters (parameters : List MethodParameter)
  | Module (module_name_index : Nat) (module_flags : List AccessFlag)
      (module_version_index : Nat) (requires : List ModuleRequires)
      (exports : List ModuleExports) (opens : List ModuleOpens)
      (uses : List Nat) (provides : List ModuleProvides)
  | ModuleMainClass (main_class_index : Nat)
  | ModulePackages (packages_index : List Nat)
  | NestHost (host_class_index : Nat)
  | NestMembers (classes : List Nat)
  | PermittedSubclasses (classes : List Nat)
  | Record (components : List RecordComponent)
  | RuntimeInvisibleAnnots (annots : List Annot)
  | RuntimeInvisibleParameterAnnots (annots : List (List Annot))
  | RuntimeInvisibleTypeAnnots (annots : List TypeAnnot)
  | RuntimeVisibleAnnots (annots : List Annot)
  | RuntimeVisibleParameterAnnots (annots : List (List Annot))
  | RuntimeVisibleTypeAnnots (annots : List TypeAnnot)
  | Signature (signature_index : Nat)
  | SourceDebugExtension (debug_extension : List Nat)
  | SourceFile (sourcefile_index : Nat)
  | StackMapTable (frames : List StackMapFrame)
  | Synthetic
  | Unknown (name : List Nat) (data : List Nat)
  deriving Repr
inductive RecordComponent where
  | mk (name_index : Nat) (descriptor_index : Nat)
      (attributes : List Attribute)
  deriving Repr
end

/-- `structs.rs` `MemberData`. -/
structure MemberData where
  access_flags : List AccessFlag
  name : Nat
  descriptor : Nat
  attributes : List Attribute
  deriving Repr

/-- `structs.rs` `Field` (a newtype over `MemberData`; named `JvmField`
because `Field` is taken; the Rust `.0` is `.data` here). -/
structure JvmField where
  data : MemberData
  deriving Repr

/-- `structs.rs` `Method` (a newtype over `MemberData`; named `JvmMethod`
to match `JvmField`). -/
structure JvmMethod where
  data : MemberData
  deriving Repr

/-- `lib.rs` `JVMClass`. -/
structure JVMClass where
  major : Nat
  minor : Nat
  access_flags : List AccessFlag
  this_class : Nat
  super_class : Nat
  constants : List Constant
  interfaces : List Nat
  fields : List JvmField
  methods : List JvmMethod
  attributes : List Attribute
  deriving Repr

/-- `lib.rs` `JVMClass::new`. -/
def JVMClass.new : JVMClass :=
  { major := 0, minor := 0, access_flags := [], this_class := 0,
    super_class := 0, constants := [], interfaces := [], fields := [],
    methods := [], attributes := [] }

/-! ## String view API (`lib.rs`) -/

/-- The bytes of the string `java/lang/` (stripped by `get_string`). -/
def javaLangBytes : List Nat := [106, 97, 118, 97, 47, 108, 97, 110, 103, 47]

/-- The `Display` rendering of a `Constant`, used only to build the
`ConstantTypeError` message.  Numeric payloads are rendered with
`toString`; for `Float`/`Double` this renders the raw bit pattern and for
`Utf8` the byte list, an abstraction of Rust's formatting that no theorem
inspects. -/
def constantDisplay : Constant → String
  | .Class ni => "Constant::Class #" ++ toString ni
  | .Double bits => "Constant::Double " ++ toString bits
  | .Dynamic a b =>
    "Constant::Dynamic #" ++ toString a ++ ", #" ++ toString b
  | .Fieldref a b =>
    "Constant::Fieldref #" ++ toString a ++ ", #" ++ toString b
  | .Float bits => "Constant::Float " ++ toString bits
  | .Integer v => "Constant::Integer " ++ toString v
  | .InterfaceMethodref a b =>
    "Constant::InterfaceMethodref #" ++ toString a ++ ", #" ++ toString b
  | .Invalid => "Constant::Invalid"
  | .InvokeDynamic a b =>
    "Constant::InvokeDynamic #" ++ toString a ++ ", #" ++ toString b
  | .Long v => "Constant::Long " ++ toString v
  | .MethodHandle k i =>
    "Constant::MethodHandle #" ++ toString k ++ ", #" ++ toString i
  | .Methodref a b =>
    "Constant::Methodref #" ++ toString a ++ ", #" ++ toString b
  | .MethodType d => "Constant::MethodType #" ++ toString d
  | .Module n => "Constant::Module #" ++ toString n
  | .NameAndType a b =>
    "Constant::NameAndType #" ++ toString a ++ ", #" ++ toString b
  | .Package n => "Constant::Package #" ++ toString n
  | .String si => "Constant::String #" ++ toString si
  | .Utf8 s => "Constant::Utf8(" ++ toString s ++ ")"

/-- `lib.rs` `JVMClass::get_string`, with explicit recursion fuel.  The
Rust function recurses through `String`/`Class` indirections and loops
forever on a cyclic pool; `none` models that divergence.  A terminating
Rust run visits pairwise-distinct indices, so it takes at most
`constants.length + 1` steps — the fuel used by `JVMClass.get_string`. -/
def getStringFuel (jvm : JVMClass) :
    Nat → Nat → Option (Except JavaError (List Nat))
  | 0, _ => none
  | fuel + 1, id =>
    match jvm.constants[id]? with
    | some c =>
      match c with
      | .Class name_index =>
        match getStringFuel jvm fuel name_index with
        | none => none
        | some (.error e) => some (.error e)
        | some (.ok cname) =>
          some (.ok (if cname.take 10 = javaLangBytes
            then cname.drop 10 else cname))
      | .Utf8 string => some (.ok string)
      | .String string_index => getStringFuel jvm fuel string_index
      | _ => some (.error (.ConstantTypeError ("#" ++ toString id ++
          " is not a string, but a " ++ constantDisplay c)))
    | none => some (.error (.InvalidConstantId id))

/-- `JVMClass::get_string` at the always-sufficient fuel. -/
def JVMClass.get_string (jvm : JVMClass) (id : Nat) :
    Option (Except JavaError (List Nat)) :=
  getStringFuel jvm (jvm.constants.length + 1) id

/-- The `for (index, constant)` scan of `get_string_index` (the returned
index is cast `as u16`). -/
def getStringIndexLoop (string : List Nat) :
    Nat → List Constant → Except JavaError Nat
  | _, [] => .error .StringNotFound
  | index, c :: rest =>
    match c with
    | .Utf8 s =>
      if s = string then .ok (index % 65536)
      else getStringIndexLoop string (index + 1) rest
    | _ => getStringIndexLoop string (index + 1) rest

/-- `lib.rs` `JVMClass::get_string_index`. -/
def JVMClass.get_string_index (jvm : JVMClass) (string : List Nat) :
    Except JavaError Nat :=
  getStringIndexLoop string 0 jvm.constants

/-! ## Attribute readers (`reader.rs`) -/

/-- `reader.rs` `read_verification_type`. -/
def read_verification_type (s : List Nat) :
    Option (VerificationType × List Nat) := do
  let (tag, s) ← readU8 s
  match tag with
  | 0 => some (.Top, s)
  | 1 => some (.Integer, s)
  | 2 => some (.Float, s)
  | 3 => some (.Double, s)
  | 4 => some (.Long, s)
  | 5 => some (.Null, s)
  | 6 => some (.UninitializedThis, s)
  | 7 => do
    let (cpool_index, s) ← readU16 s
    some (.Object cpool_index, s)
  | 8 => do
    let (offset, s) ← readU16 s
    some (.Uninitialized offset, s)
  | _ => none

/-- `n` verification-type reads in sequence. -/
def read_verification_types :
    Nat → List Nat → Option (List VerificationType × List Nat)
  | 0, s => some ([], s)
  | n + 1, s => do
    let (v, s) ← read_verification_type s
    let (vs, s) ← read_verification_types n s
    some (v :: vs, s)

/-- One `StackMapTable` entry: the `match frame_type` of
`read_attributes`.  The frame starts as
`SameFrame(0) / offset_delta 0 / no locals / no stack` and only the
fields the arm touches change; in particular the 0–63 and 64–127 arms
leave `offset_delta = 0`, and the 247 arm reads no `offset_delta` at
all (it reads only the verification type), as in the source. -/
def read_stack_map_frame (s : List Nat) :
    Option (StackMapFrame × List Nat) := do
  let (frame_type, s) ← readU8 s
  if frame_type ≤ 63 then
    some ({ frame_type := .SameFrame frame_type,
            offset_delta := 0, locals := [], stack := [] }, s)
  else if frame_type ≤ 127 then do
    let (vt, s) ← read_verification_type s
    some ({ frame_type := .SameLocals1StackItemFrame frame_type,
            offset_delta := 0, locals := [], stack := [vt] }, s)
  else if frame_type = 247 then do
    let (vt, s) ← read_verification_type s
    some ({ frame_type := .SameLocals1StackItemFrameExtended,
            offset_delta := 0, locals := [], stack := [vt] }, s)
  else if 248 ≤ frame_type ∧ frame_type ≤ 250 then do
    let (offset_delta, s) ← readU16 s
    some ({ frame_type := .ChopFrame frame_type,
            offset_delta := offset_delta, locals := [], stack := [] }, s)
  else if frame_type = 251 then do
    let (offset_delta, s) ← readU16 s
    some ({ frame_type := .SameFrameExtended,
            offset_delta := offset_delta, locals := [], stack := [] }, s)
  else if 252 ≤ frame_type ∧ frame_type ≤ 254 then do
    let (offset_delta, s) ← readU16 s
    let (locals, s) ← read_verification_types (frame_type - 251) s
    some ({ frame_type := .AppendFrame frame_type,
            offset_delta := offset_delta, locals := locals,
            stack := [] }, s)
  else if frame_type = 255 then do
    let (number_of_locals, s) ← readU16 s
    let (locals, s) ← read_verification_types number_of_locals s
    let (number_of_stack_items, s) ← readU16 s
    let (stack, s) ← read_verification_types number_of_stack_items s
    some ({ frame_type := .FullFrame, offset_delta := 0,
            locals := locals, stack := stack }, s)
  else none

/-- The `for _ in 0..number_of_entries` frame loop. -/
def read_stack_map_frames :
    Nat → List Nat → Option (List StackMapFrame × List Nat)
  | 0, s => some ([], s)
  | n + 1, s => do
    let (f, s) ← read_stack_map_frame s
    let (fs, s) ← read_stack_map_frames n s
    some (f :: fs, s)

/-- The exception-table loop of the `Code` arm. -/
def read_exception_table :
    Nat → List Nat → Option (List ExceptionTableEntry × List Nat)
  | 0, s => some ([], s)
  | n + 1, s => do
    let (start_pc, s) ← readU16 s
    let (end_pc, s) ← readU16 s
    let (handler_pc, s) ← readU16 s
    let (catch_type, s) ← readU16 s
    let (rest, s) ← read_exception_table n s
    some ({ start_pc := start_pc, end_pc := end_pc,
            handler_pc := handler_pc,
            catch_type := catch_type } :: rest, s)

/-- The localvar-table loop of target type `0x40`/`0x41`. -/
def read_local_var_table :
    Nat → List Nat → Option (List LocalVar × List Nat)
  | 0, s => some ([], s)
  | n + 1, s => do
    let (start_pc, s) ← readU16 s
    let (length, s) ← readU16 s
    let (index, s) ← readU16 s
    let (rest, s) ← read_local_var_table n s
    some ({ start_pc := start_pc, length := length,
            index := index } :: rest, s)

/-- `reader.rs` `read_target_info`. -/
def read_target_info (s : List Nat) : Option (TargetInfo × List Nat) := do
  let (target_type, s) ← readU8 s
  if target_type = 0x00 ∨ target_type = 0x01 then do
    let (type_parameter_index, s) ← readU8 s
    some (.TypeParameter target_type type_parameter_index, s)
  else if target_type = 0x10 then do
    let (supertype_index, s) ← readU16 s
    some (.Supertype supertype_index, s)
  else if target_type = 0x11 ∨ target_type = 0x12 then do
    let (type_parameter_index, s) ← readU8 s
    let (bound_index, s) ← readU8 s
    some (.TypeParameterBound target_type type_parameter_index
      bound_index, s)
  else if target_type = 0x13 ∨ target_type = 0x14 ∨ target_type = 0x15
  then some (.Empty target_type, s)
  else if target_type = 0x16 then do
    let (formal_parameter_index, s) ← readU8 s
    some (.FormalParameter formal_parameter_index, s)
  else if target_type = 0x17 then do
    let (throws_type_index, s) ← readU16 s
    some (.Throws throws_type_index, s)
  else if target_type = 0x40 ∨ target_type = 0x41 then do
    let (table_length, s) ← readU16 s
    let (table, s) ← read_local_var_table table_length s
    some (.Localvar target_type table, s)
  else if target_type = 0x42 then do
    let (exception_table_index, s) ← readU16 s
    some (.Catch exception_table_index, s)
  else if 0x43 ≤ target_type ∧ target_type ≤ 0x46 then do
    let (offset, s) ← readU16 s
    some (.Offset target_type offset, s)
  else if 0x47 ≤ target_type ∧ target_type ≤ 0x4B then do
    let (offset, s) ← readU16 s
    let (type_argument_index, s) ← readU8 s
    some (.TypeArgument target_type offset type_argument_index, s)
  else none

/-! ## Annotation readers (`reader.rs` `read_annotations`,
`read_annotation`, `read_element_value`).  Element values nest through
annotations and arrays; every family-internal call decrements the fuel,
so any fuel larger than the total number of parsed items (each consumes
at least one byte) reproduces the source. -/

mutual
def read_element_value :
    Nat → List Nat → Option (ElementValue × List Nat)
  | 0, _ => none
  | fuel + 1, s => do
    let (tag, s) ← readU8 s
    -- tag bytes: 'B' 'C' 'D' 'F' 'I' 'J' 'S' 'Z' 's' → const value
    if tag = 66 ∨ tag = 67 ∨ tag = 68 ∨ tag = 70 ∨ tag = 73 ∨
        tag = 74 ∨ tag = 83 ∨ tag = 90 ∨ tag = 115 then do
      let (const_value_index, s) ← readU16 s
      some (.ConstValueIndex tag const_value_index, s)
    else if tag = 99 then do -- 'c'
      let (class_info_index, s) ← readU16 s
      some (.ClassInfoIndex class_info_index, s)
    else if tag = 101 then do -- 'e'
      let (type_name_index, s) ← readU16 s
      let (const_name_index, s) ← readU16 s
      some (.EnumConstValue type_name_index const_name_index, s)
    else if tag = 64 then do -- '@'
      let (a, s) ← read_annot fuel s
      some (.AnnotValue a, s)
    else if tag = 91 then do -- '['
      let (num_values, s) ← readU16 s
      let (values, s) ← read_element_value_list fuel num_values s
      some (.ArrayValue values, s)
    else none
def read_element_value_list :
    Nat → Nat → List Nat → Option (List ElementValue × List Nat)
  | _, 0, s => some ([], s)
  | 0, _ + 1, _ => none
  | fuel + 1, n + 1, s => do
    let (v, s) ← read_element_value fuel s
    let (vs, s) ← read_element_value_list fuel n s
    some (v :: vs, s)
def read_annot : Nat → List Nat → Option (Annot × List Nat)
  | 0, _ => none
  | fuel + 1, s => do
    let (type_index, s) ← readU16 s
    let (num_element_value_pairs, s) ← readU16 s
    let (pairs, s) ←
      read_element_value_pair_list fuel num_element_value_pairs s
    some (.mk type_index pairs, s)
def read_element_value_pair_list :
    Nat → Nat → List Nat → Option (List ElementValuePair × List Nat)
  | _, 0, s => some ([], s)
  | 0, _ + 1, _ => none
  | fuel + 1, n + 1, s => do
    let (element_name_index, s) ← readU16 s
    let (value, s) ← read_element_value fuel s
    let (ps, s) ← read_element_value_pair_list fuel n s
    some (.mk element_name_index value :: ps, s)
end

/-- The `for _ in 0..num_annotations` loop of `read_annotations`. -/
def read_annot_list :
    Nat → Nat → List Nat → Option (List Annot × List Nat)
  | _, 0, s => some ([], s)
  | 0, _ + 1, _ => none
  | fuel + 1, n + 1, s => do
    let (a, s) ← read_annot fuel s
    let (rest, s) ← read_annot_list fuel n s
    some (a :: rest, s)

/-- `reader.rs` `read_annotations`. -/
def read_annots (fuel : Nat) (s : List Nat) :
    Option (List Annot × List Nat) := do
  let (num, s) ← readU16 s
  read_annot_list fuel num s

/-- The per-parameter annotation loop of the two parameter-annotation
attributes. -/
def read_parameter_annots :
    Nat → Nat → List Nat → Option (List (List Annot) × List Nat)
  | _, 0, s => some ([], s)
  | 0, _ + 1, _ => none
  | fuel + 1, n + 1, s => do
    let (a, s) ← read_annots fuel s
    let (rest, s) ← read_parameter_annots fuel n s
    some (a :: rest, s)

/-- The target-path loop of `read_type_annotation`. -/
def read_type_path_list :
    Nat → List Nat → Option (List TypePath × List Nat)
  | 0, s => some ([], s)
  | n + 1, s => do
    let (type_path_kind, s) ← readU8 s
    let (type_argument_index, s) ← readU8 s
    let (rest, s) ← read_type_path_list n s
    some ({ type_path_kind := type_path_kind,
            type_argument_index := type_argument_index } :: rest, s)

/-- `reader.rs` `read_type_annotation`. -/
def read_type_annot (fuel : Nat) (s : List Nat) :
    Option (TypeAnnot × List Nat) := do
  let (target_info, s) ← read_target_info s
  let (path_length, s) ← readU8 s
  let (target_path, s) ← read_type_path_list path_length s
  let (a, s) ← read_annot fuel s
  some ({ target_info := target_info, target_path := target_path,
          annot := a }, s)

/-- The count loop over `read_type_annotation`. -/
def read_type_annot_list :
    Nat → Nat → List Nat → Option (List TypeAnnot × List Nat)
  | _, 0, s => some ([], s)
  | 0, _ + 1, _ => none
  | fuel + 1, n + 1, s => do
    let (a, s) ← read_type_annot fuel s
    let (rest, s) ← read_type_annot_list fuel n s
    some (a :: rest, s)

/-! ## Module-attribute readers (`reader.rs`) -/

/-- The requires loop of `read_module_requires`. -/
def read_module_requires_list :
    Nat → List Nat → Option (List ModuleRequires × List Nat)
  | 0, s => some ([], s)
  | n + 1, s => do
    let (requires_index, s) ← readU16 s
    let (raw, s) ← readU16 s
    let (requires_version_index, s) ← readU16 s
    let (rest, s) ← read_module_requires_list n s
    some ({ requires_index := requires_index,
            requires_flags := extract_module_requires_flags raw,
            requires_version_index := requires_version_index } :: rest, s)

/-- `reader.rs` `read_module_requires`. -/
def read_module_requires (s : List Nat) :
    Option (List ModuleRequires × List Nat) := do
  let (requires_count, s) ← readU16 s
  read_module_requires_list requires_count s

/-- A `u16` count-prefixed list of `u16` values (the `exports_to`,
`opens_to`, `uses`, `provides_with`, interface and similar loops). -/
def read_u16_list : Nat → List Nat → Option (List Nat × List Nat)
  | 0, s => some ([], s)
  | n + 1, s => do
    let (v, s) ← readU16 s
    let (rest, s) ← read_u16_list n s
    some (v :: rest, s)

/-- The exports loop of `read_module_exports`. -/
def read_module_exports_list :
    Nat → List Nat → Option (List ModuleExports × List Nat)
  | 0, s => some ([], s)
  | n + 1, s => do
    let (exports_index, s) ← readU16 s
    let (raw, s) ← readU16 s
    let (exports_to_count, s) ← readU16 s
    let (exports_to_index, s) ← read_u16_list exports_to_count s
    let (rest, s) ← read_module_exports_list n s
    some ({ exports_index := exports_index,
            exports_flags := extract_module_exports_flags raw,
            exports_to_index := exports_to_index } :: rest, s)

/-- `reader.rs` `read_module_exports`. -/
def read_module_exports (s : List Nat) :
    Option (List ModuleExports × List Nat) := do
  let (exports_count, s) ← readU16 s
  read_module_exports_list exports_count s

/-- The opens loop of `read_module_opens`. -/
def read_module_opens_list :
    Nat → List Nat → Option (List ModuleOpens × List Nat)
  | 0, s => some ([], s)
  | n + 1, s => do
    let (opens_index, s) ← readU16 s
    let (raw, s) ← readU16 s
    let (opens_to_count, s) ← readU16 s
    let (opens_to_index, s) ← read_u16_list opens_to_count s
    let (rest, s) ← read_module_opens_list n s
    some ({ opens_index := opens_index,
            opens_flags := extract_module_opens_flags raw,
            opens_to_index := opens_to_index } :: rest, s)

/-- `reader.rs` `read_module_opens`. -/
def read_module_opens (s : List Nat) :
    Option (List ModuleOpens × List Nat) := do
  let (opens_count, s) ← readU16 s
  read_module_opens_list opens_count s

/-- The provides loop of `read_module_provides`. -/
def read_module_provides_list :
    Nat → List Nat → Option (List ModuleProvides × List Nat)
  | 0, s => some ([], s)
  | n + 1, s => do
    let (provides_index, s) ← readU16 s
    let (provides_with_count, s) ← readU16 s
    let (provides_with_index, s) ← read_u16_list provides_with_count s
    let (rest, s) ← read_module_provides_list n s
    some ({ provides_index := provides_index,
            provides_with_index := provides_with_index } :: rest, s)

/-- `reader.rs` `read_module_provides`. -/
def read_module_provides (s : List Nat) :
    Option (List ModuleProvides × List Nat) := do
  let (provides_count, s) ← readU16 s
  read_module_provides_list provides_count s

/-! ## Remaining small readers -/

/-- The `InnerClasses` class loop. -/
def read_inner_class_list :
    Nat → List Nat → Option (List InnerClass × List Nat)
  | 0, s => some ([], s)
  | n + 1, s => do
    let (inner_class_info_index, s) ← readU16 s
    let (outer_class_info_index, s) ← readU16 s
    let (inner_name_index, s) ← readU16 s
    let (raw, s) ← readU16 s
    let (rest, s) ← read_inner_class_list n s
    some ({ inner_class_info_index := inner_class_info_index,
            outer_class_info_index := outer_class_info_index,
            inner_name_index := inner_name_index,
            inner_class_access_flags := extract_inner_class_flags raw }
      :: rest, s)

/-- The `LineNumberTable` loop. -/
def read_line_number_list :
    Nat → List Nat → Option (List LineNumber × List Nat)
  | 0, s => some ([], s)
  | n + 1, s => do
    let (start_pc, s) ← readU16 s
    let (line_number, s) ← readU16 s
    let (rest, s) ← read_line_number_list n s
    some ({ start_pc := start_pc, line_number := line_number } :: rest, s)

/-- The `LocalVariableTable` loop. -/
def read_local_variable_list :
    Nat → List Nat → Option (List LocalVariable × List Nat)
  | 0, s => some ([], s)
  | n + 1, s => do
    let (start_pc, s) ← readU16 s
    let (length, s) ← readU16 s
    let (name_index, s) ← readU16 s
    let (descriptor_index, s) ← readU16 s
    let (index, s) ← readU16 s
    let (rest, s) ← read_local_variable_list n s
    some ({ start_pc := start_pc, length := length,
            name_index := name_index,
            descriptor_index := descriptor_index,
            index := index } :: rest, s)

/-- The `LocalVariableTypeTable` loop. -/
def read_local_variable_type_list :
    Nat → List Nat → Option (List LocalVariableType × List Nat)
  | 0, s => some ([], s)
  | n + 1, s => do
    let (start_pc, s) ← readU16 s
    let (length, s) ← readU16 s
    let (name_index, s) ← readU16 s
    let (signature_index, s) ← readU16 s
    let (index, s) ← readU16 s
    let (rest, s) ← read_local_variable_type_list n s
    some ({ start_pc := start_pc, length := length,
            name_index := name_index,
            signature_index := signature_index,
            index := index } :: rest, s)

/-- The `BootstrapMethods` loop. -/
def read_bootstrap_method_list :
    Nat → List Nat → Option (List BootstrapMethod × List Nat)
  | 0, s => some ([], s)
  | n + 1, s => do
    let (bootstrap_method_ref, s) ← readU16 s
    let (num_bootstrap_arguments, s) ← readU16 s
    let (bootstrap_arguments, s) ← read_u16_list num_bootstrap_arguments s
    let (rest, s) ← read_bootstrap_method_list n s
    some ({ bootstrap_method_ref := bootstrap_method_ref,
            bootstrap_arguments := bootstrap_arguments } :: rest, s)

/-- The `MethodParameters` loop. -/
def read_method_parameter_list :
    Nat → List Nat → Option (List MethodParameter × List Nat)
  | 0, s => some ([], s)
  | n + 1, s => do
    let (name_index, s) ← readU16 s
    let (raw, s) ← readU16 s
    let (rest, s) ← read_method_parameter_list n s
    some ({ name_index := name_index,
            access_flags := extract_method_parameter_flags raw }
      :: rest, s)

/-- `reader.rs` `read_interfaces`. -/
def read_interfaces (s : List Nat) : Option (List Nat × List Nat) := do
  let (count, s) ← readU16 s
  read_u16_list count s

/-! ## The attribute reader (`reader.rs` `read_attributes`).

The family recurses through nested attribute lists (`Code`, `Record`);
every family-internal call decrements the fuel.  Each parsed attribute
consumes at least its 6-byte header, so any fuel above the stream length
reproduces the source. -/

mutual
def read_attributes :
    Nat → JVMClass → List Nat → Option (List Attribute × List Nat)
  | 0, _, _ => none
  | fuel + 1, jvm, s => do
    let (attributes_count, s) ← readU16 s
    read_attributes_list fuel jvm attributes_count s
def read_attributes_list :
    Nat → JVMClass → Nat → List Nat → Option (List Attribute × List Nat)
  | _, _, 0, s => some ([], s)
  | 0, _, _ + 1, _ => none
  | fuel + 1, jvm, n + 1, s => do
    let (attr, s) ← read_attribute fuel jvm s
    let (rest, s) ← read_attributes_list fuel jvm n s
    some (attr :: rest, s)
def read_attribute :
    Nat → JVMClass → List Nat → Option (Attribute × List Nat)
  | 0, _, _ => none
  | fuel + 1, jvm, s => do
    let (attribute_name_index, s) ← readU16 s
    let (attribute_length, s) ← readU32 s
    match jvm.get_string attribute_name_index with
    | none => none
    | some (.error _) => none
    | some (.ok name) =>
      if name = strConstantValue then do
        let (constantvalue_index, s) ← readU16 s
        some (.ConstantValue constantvalue_index, s)
      else if name = strCode then do
        let (max_stack, s) ← readU16 s
        let (max_locals, s) ← readU16 s
        let (code, s) ← decompile s
        let (exception_table_length, s) ← readU16 s
        let (exception_table, s) ←
          read_exception_table exception_table_length s
        let (attributes, s) ← read_attributes fuel jvm s
        some (.Code code max_stack max_locals exception_table
          attributes, s)
      else if name = strStackMapTable then do
        let (number_of_entries, s) ← readU16 s
        let (frames, s) ← read_stack_map_frames number_of_entries s
        some (.StackMapTable frames, s)
      else if name = strExceptions then do
        let (number_of_exceptions, s) ← readU16 s
        let (exceptions, s) ← read_u16_list number_of_exceptions s
        some (.Exceptions exceptions, s)
      else if name = strInnerClasses then do
        let (number_of_classes, s) ← readU16 s
        let (inner_classes, s) ← read_inner_class_list number_of_classes s
        some (.InnerClasses inner_classes, s)
      else if name = strEnclosingMethod then
        if attribute_length = 4 then do
          let (class_index, s) ← readU16 s
          let (method_index, s) ← readU16 s
          some (.EnclosingMethod class_index method_index, s)
        else none
      else if name = strSynthetic then
        if attribute_length = 0 then some (.Synthetic, s) else none
      else if name = strSignature then do
        let (signature_index, s) ← readU16 s
        some (.Signature signature_index, s)
      else if name = strSourceFile then
        if attribute_length = 2 then do
          let (sourcefile_index, s) ← readU16 s
          some (.SourceFile sourcefile_index, s)
        else none
      else if name = strSourceDebugExtension then
        let (debug_extension, s) := readBuff attribute_length s
        some (.SourceDebugExtension debug_extension, s)
      else if name = strLineNumberTable then do
        let (len, s) ← readU16 s
        let (line_number_table, s) ← read_line_number_list len s
        some (.LineNumberTable line_number_table, s)
      else if name = strLocalVariableTable then do
        let (len, s) ← readU16 s
        let (t, s) ← read_local_variable_list len s
        some (.LocalVariableTable t, s)
      else if name = strLocalVariableTypeTable then do
        let (len, s) ← readU16 s
        let (t, s) ← read_local_variable_type_list len s
        some (.LocalVariableTypeTable t, s)
      else if name = strDeprecated then
        if attribute_length = 0 then some (.Deprecated, s) else none
      else if name = strRuntimeVisibleAnnots then do
        let (xs, s) ← read_annots fuel s
        some (.RuntimeVisibleAnnots xs, s)
      else if name = strRuntimeInvisibleAnnots then do
        let (xs, s) ← read_annots fuel s
        some (.RuntimeInvisibleAnnots xs, s)
      else if name = strRuntimeVisibleParameterAnnots then do
        let (num_parameters, s) ← readU8 s
        let (xs, s) ← read_parameter_annots fuel num_parameters s
        some (.RuntimeVisibleParameterAnnots xs, s)
      else if name = strRuntimeInvisibleParameterAnnots then do
        let (num_parameters, s) ← readU8 s
        let (xs, s) ← read_parameter_annots fuel num_parameters s
        some (.RuntimeInvisibleParameterAnnots xs, s)
      else if name = strAnnotDefault then do
        let (element_value, s) ← read_element_value fuel s
        some (.AnnotDefault element_value, s)
      else if name = strBootstrapMethods then do
        let (num, s) ← readU16 s
        let (ms, s) ← read_bootstrap_method_list num s
        some (.BootstrapMethods ms, s)
      else if name = strMethodParameters then do
        let (parameters_count, s) ← readU8 s
        let (parameters, s) ← read_method_parameter_list parameters_count s
        some (.MethodParameters parameters, s)
      else if name = strModule then do
        let (module_name_index, s) ← readU16 s
        let (raw, s) ← readU16 s
        let (module_version_index, s) ← readU16 s
        let (requires, s) ← read_module_requires s
        let (exports, s) ← read_module_exports s
        let (opens, s) ← read_module_opens s
        let (uses_count, s) ← readU16 s
        let (uses, s) ← read_u16_list uses_count s
        let (provides, s) ← read_module_provides s
        some (.Module module_name_index (extract_module_flags raw)
          module_version_index requires exports opens uses provides, s)
      else if name = strModuleMainClass then
        if attribute_length = 2 then do
          let (main_class_index, s) ← readU16 s
          some (.ModuleMainClass main_class_index, s)
        else none
      else if name = strModulePackages then do
        let (packages_count, s) ← readU16 s
        let (packages_index, s) ← read_u16_list packages_count s
        some (.ModulePackages packages_index, s)
      else if name = strNestHost then
        if attribute_length = 2 then do
          let (host_class_index, s) ← readU16 s
          some (.NestHost host_class_index, s)
        else none
      else if name = strNestMembers then do
        let (number_of_classes, s) ← readU16 s
        let (classes, s) ← read_u16_list number_of_classes s
        some (.NestMembers classes, s)
      else if name = strPermittedSubclasses then do
        let (number_of_classes, s) ← readU16 s
        let (classes, s) ← read_u16_list number_of_classes s
        some (.PermittedSubclasses classes, s)
      else if name = strRecord then do
        let (components_count, s) ← readU16 s
        let (components, s) ←
          read_record_component_list fuel jvm components_count s
        some (.Record components, s)
      else if name = strRuntimeInvisibleTypeAnnots then do
        let (num, s) ← readU16 s
        let (xs, s) ← read_type_annot_list fuel num s
        some (.RuntimeInvisibleTypeAnnots xs, s)
      else if name = strRuntimeVisibleTypeAnnots then do
        let (num, s) ← readU16 s
        let (xs, s) ← read_type_annot_list fuel num s
        some (.RuntimeVisibleTypeAnnots xs, s)
      else
        let (data, s) := readBuff attribute_length s
        some (.Unknown name data, s)
def read_record_component_list :
    Nat → JVMClass → Nat → List Nat →
    Option (List RecordComponent × List Nat)
  | _, _, 0, s => some ([], s)
  | 0, _, _ + 1, _ => none
  | fuel + 1, jvm, n + 1, s => do
    let (name_index, s) ← readU16 s
    let (descriptor_index, s) ← readU16 s
    let (attributes, s) ← read_attributes fuel jvm s
    let (rest, s) ← read_record_component_list fuel jvm n s
    some (.mk name_index descriptor_index attributes :: rest, s)
end

/-! ## Fields, methods and the class loader (`reader.rs`, `lib.rs`) -/

/-- The field loop of `read_fields`. -/
def read_field_list :
    Nat → JVMClass → Nat → List Nat → Option (List JvmField × List Nat)
  | _, _, 0, s => some ([], s)
  | 0, _, _ + 1, _ => none
  | fuel + 1, jvm, n + 1, s => do
    let (raw, s) ← readU16 s
    let (name, s) ← readU16 s
    let (descriptor, s) ← readU16 s
    let (attributes, s) ← read_attributes fuel jvm s
    let (rest, s) ← read_field_list fuel jvm n s
    some ({ data := { access_flags := extract_field_flags raw,
                      name := name, descriptor := descriptor,
                      attributes := attributes } } :: rest, s)

/-- `reader.rs` `read_fields`. -/
def read_fields (fuel : Nat) (jvm : JVMClass) (s : List Nat) :
    Option (List JvmField × List Nat) := do
  let (count, s) ← readU16 s
  read_field_list fuel jvm count s

/-- The method loop of `read_methods`. -/
def read_method_list :
    Nat → JVMClass → Nat → List Nat → Option (List JvmMethod × List Nat)
  | _, _, 0, s => some ([], s)
  | 0, _, _ + 1, _ => none
  | fuel + 1, jvm, n + 1, s => do
    let (raw, s) ← readU16 s
    let (name, s) ← readU16 s
    let (descriptor, s) ← readU16 s
    let (attributes, s) ← read_attributes fuel jvm s
    let (rest, s) ← read_method_list fuel jvm n s
    some ({ data := { access_flags := extract_method_flags raw,
                      name := name, descriptor := descriptor,
                      attributes := attributes } } :: rest, s)

/-- `reader.rs` `read_methods`. -/
def read_methods (fuel : Nat) (jvm : JVMClass) (s : List Nat) :
    Option (List JvmMethod × List Nat) := do
  let (count, s) ← readU16 s
  read_method_list fuel jvm count s

/-- `lib.rs` `JVMClass::load`.  The wrong magic is the failed
`assert_eq!`.  `4 * s.length + 16` over-approximates every fuel bound the
reader families need on this stream. -/
def JVMClass.load (s : List Nat) : Option JVMClass := do
  let fuel := 4 * s.length + 16
  let (magic, s) ← readU32 s
  if magic = 0xCAFEBABE then do
    let (minor, s) ← readU16 s
    let (major, s) ← readU16 s
    let (constants, s) ← read_constant_pool s
    let (raw_flags, s) ← readU16 s
    let (this_class, s) ← readU16 s
    let (super_class, s) ← readU16 s
    let (interfaces, s) ← read_interfaces s
    let jvm : JVMClass :=
      { major := major, minor := minor,
        access_flags := extract_class_flags raw_flags,
        this_class := this_class, super_class := super_class,
        constants := constants, interfaces := interfaces,
        fields := [], methods := [], attributes := [] }
    let (fields, s) ← read_fields fuel jvm s
    let (methods, s) ← read_methods fuel jvm s
    let (attributes, _) ← read_attributes fuel jvm s
    some { jvm with fields := fields, methods := methods,
                    attributes := attributes }
  else none

/-! ## Writers (`writer.rs`) -/

/-- `writer.rs` `write_verification_type`. -/
def write_verification_type : VerificationType → List Nat
  | .Top => writeU8 0
  | .Integer => writeU8 1
  | .Float => writeU8 2
  | .Double => writeU8 3
  | .Long => writeU8 4
  | .Null => writeU8 5
  | .UninitializedThis => writeU8 6
  | .Object cpool_index => writeU8 7 ++ writeU16 cpool_index
  | .Uninitialized offset => writeU8 8 ++ writeU16 offset

/-- One frame of the `StackMapTable` arm of `write_attributes`.  The
`frame.stack[0]` indexing panics (`none`) on an empty stack; note that,
as in the source, `SameLocals1StackItemFrame(Extended)` writes no
`offset_delta` and `FullFrame` writes none either. -/
def write_stack_map_frame (frame : StackMapFrame) : Option (List Nat) :=
  match frame.frame_type with
  | .SameFrame frame_type => some (writeU8 frame_type)
  | .SameLocals1StackItemFrame frame_type =>
    match frame.stack.head? with
    | some vt => some (writeU8 frame_type ++ write_verification_type vt)
    | none => none
  | .SameLocals1StackItemFrameExtended =>
    match frame.stack.head? with
    | some vt => some (writeU8 247 ++ write_verification_type vt)
    | none => none
  | .ChopFrame frame_type =>
    some (writeU8 frame_type ++ writeU16 frame.offset_delta)
  | .SameFrameExtended =>
    some (writeU8 251 ++ writeU16 frame.offset_delta)
  | .AppendFrame frame_type =>
    some (writeU8 frame_type ++ writeU16 frame.offset_delta ++
      frame.locals.flatMap write_verification_type)
  | .FullFrame =>
    some (writeU8 255 ++ writeU16 frame.locals.length ++
      frame.locals.flatMap write_verification_type ++
      writeU16 frame.stack.length ++
      frame.stack.flatMap write_verification_type)

/-- The frame loop of the `StackMapTable` arm. -/
def write_stack_map_frames : List StackMapFrame → Option (List Nat)
  | [] => some []
  | f :: rest => do
    let b ← write_stack_map_frame f
    let bs ← write_stack_map_frames rest
    some (b ++ bs)

/-!
`writer.rs` `write_element_value`, `write_annotation` and the pair loop,
as one mutual nest.
-/
mutual
def write_element_value : ElementValue → List Nat
  | .ConstValueIndex tag const_value_index =>
    writeU8 tag ++ writeU16 const_value_index
  | .ClassInfoIndex class_info_index =>
    writeU8 99 ++ writeU16 class_info_index
  | .EnumConstValue type_name_index const_name_index =>
    writeU8 101 ++ writeU16 type_name_index ++ writeU16 const_name_index
  | .AnnotValue a => writeU8 64 ++ write_annot a
  | .ArrayValue values =>
    writeU8 91 ++ writeU16 values.length ++
      write_element_value_list values
def write_element_value_list : List ElementValue → List Nat
  | [] => []
  | v :: rest => write_element_value v ++ write_element_value_list rest
def write_annot : Annot → List Nat
  | .mk type_index pairs =>
    writeU16 type_index ++ writeU16 pairs.length ++
      write_element_value_pair_list pairs
def write_element_value_pair_list : List ElementValuePair → List Nat
  | [] => []
  | .mk element_name_index value :: rest =>
    writeU16 element_name_index ++ write_element_value value ++
      write_element_value_pair_list rest
end

/-- `writer.rs` `write_annotations`. -/
def write_annots (annots : List Annot) : List Nat :=
  writeU16 annots.length ++ annots.flatMap write_annot

/-- `writer.rs` `write_target_info`.  Transcribed exactly: the `Throws`
arm writes no target-type byte. -/
def write_target_info : TargetInfo → List Nat
  | .TypeParameter target_type type_parameter_index =>
    writeU8 target_type ++ writeU8 type_parameter_index
  | .Supertype supertype_index =>
    writeU8 0x10 ++ writeU16 supertype_index
  | .TypeParameterBound target_type type_parameter_index bound_index =>
    writeU8 target_type ++ writeU8 type_parameter_index ++
      writeU8 bound_index
  | .Empty target_type => writeU8 target_type
  | .FormalParameter formal_parameter_index =>
    writeU8 0x16 ++ writeU8 formal_parameter_index
  | .Throws throws_type_index => writeU16 throws_type_index
  | .Localvar target_type table =>
    writeU8 target_type ++ writeU16 table.length ++
      table.flatMap (fun lv =>
        writeU16 lv.start_pc ++ writeU16 lv.length ++ writeU16 lv.index)
  | .Catch exception_table_index =>
    writeU8 0x42 ++ writeU16 exception_table_index
  | .Offset target_type offset =>
    writeU8 target_type ++ writeU16 offset
  | .TypeArgument target_type offset type_argument_index =>
    writeU8 target_type ++ writeU16 offset ++
      writeU8 type_argument_index

/-- `writer.rs` `write_type_annotation`.  Transcribed exactly: no
`path_length` byte is written before the target path. -/
def write_type_annot (ta : TypeAnnot) : List Nat :=
  write_target_info ta.target_info ++
    ta.target_path.flatMap (fun p =>
      writeU8 p.type_path_kind ++ writeU8 p.type_argument_index) ++
    write_annot ta.annot

/-- `writer.rs` `write_module_requires`. -/
def write_module_requires (requires : List ModuleRequires) : List Nat :=
  writeU16 requires.length ++
    requires.flatMap (fun r =>
      writeU16 r.requires_index ++
        writeU16 (compact_module_requires_flags r.requires_flags) ++
        writeU16 r.requires_version_index)

/-- `writer.rs` `write_module_exports`.  Transcribed exactly: no
`exports_to_count` is written before the target list. -/
def write_module_exports (exports : List ModuleExports) : List Nat :=
  writeU16 exports.length ++
    exports.flatMap (fun e =>
      writeU16 e.exports_index ++
        writeU16 (compact_module_exports_flags e.exports_flags) ++
        e.exports_to_index.flatMap writeU16)

/-- `writer.rs` `write_module_opens`.  Transcribed exactly: no
`opens_to_count` is written. -/
def write_module_opens (opens : List ModuleOpens) : List Nat :=
  writeU16 opens.length ++
    opens.flatMap (fun o =>
      writeU16 o.opens_index ++
        writeU16 (compact_module_opens_flags o.opens_flags) ++
        o.opens_to_index.flatMap writeU16)

/-- `writer.rs` `write_module_provides`.  Transcribed exactly: no
`provides_with_count` is written. -/
def write_module_provides (provides : List ModuleProvides) : List Nat :=
  writeU16 provides.length ++
    provides.flatMap (fun p =>
      writeU16 p.provides_index ++
        p.provides_with_index.flatMap writeU16)

/-!
The attribute writer (`writer.rs` `write_attributes`).  Per attribute the
source records the stream position, writes 6 placeholder bytes, writes
the payload, then seeks back and patches in the resolved name index and
`attr_end - attr_start - 6` (the payload length); emitting
`name ++ length ++ payload` yields the identical bytes.  The
`get_string_index(..).unwrap()` panic on a missing name is `none`.

The family recurses through nested attribute lists (`Code`, `Record`);
every family-internal call decrements the fuel, and every such call
descends into the data, so `write_attributes` instantiating the fuel
with `4 * sizeOf attributes + 16` always exceeds what the recursion
consumes and reproduces the source.
-/
mutual
def write_attributesF :
    Nat → JVMClass → List Attribute → Option (List Nat)
  | 0, _, _ => none
  | fuel + 1, jvm, attributes => do
    let body ← write_attribute_list fuel jvm attributes
    some (writeU16 attributes.length ++ body)
def write_attribute_list :
    Nat → JVMClass → List Attribute → Option (List Nat)
  | _, _, [] => some []
  | 0, _, _ :: _ => none
  | fuel + 1, jvm, attr :: rest => do
    let b ← write_attribute fuel jvm attr
    let bs ← write_attribute_list fuel jvm rest
    some (b ++ bs)
def write_attribute :
    Nat → JVMClass → Attribute → Option (List Nat)
  | 0, _, _ => none
  | fuel + 1, jvm, attr => do
    let (attr_name, payload) ← write_attribute_payload fuel jvm attr
    match jvm.get_string_index attr_name with
    | .error _ => none
    | .ok string_index =>
      some (writeU16 string_index ++ writeU32 payload.length ++ payload)
def write_attribute_payload :
    Nat → JVMClass → Attribute → Option (List Nat × List Nat)
  | 0, _, _ => none
  | fuel + 1, jvm, attr =>
    match attr with
  | .Code code max_stack max_locals _exception_table attributes => do
    -- the writer's `Code` arm has no `exception_table` binding and
    -- writes a literal 0 for `exception_table_length`
    let c ← compile code
    let a ← write_attributesF fuel jvm attributes
    some (strCode, writeU16 max_stack ++ writeU16 max_locals ++ c ++
      writeU16 0 ++ a)
  | .LineNumberTable line_number_table =>
    some (strLineNumberTable, writeU16 line_number_table.length ++
      line_number_table.flatMap (fun l =>
        writeU16 l.start_pc ++ writeU16 l.line_number))
  | .StackMapTable frames => do
    let body ← write_stack_map_frames frames
    some (strStackMapTable, writeU16 frames.length ++ body)
  | .Exceptions exceptions =>
    some (strExceptions, writeU16 exceptions.length ++
      exceptions.flatMap writeU16)
  | .SourceFile sourcefile_index =>
    some (strSourceFile, writeU16 sourcefile_index)
  | .BootstrapMethods bootstrap_methods =>
    some (strBootstrapMethods, writeU16 bootstrap_methods.length ++
      bootstrap_methods.flatMap (fun m =>
        writeU16 m.bootstrap_method_ref ++
        writeU16 m.bootstrap_arguments.length ++
        m.bootstrap_arguments.flatMap writeU16))
  | .InnerClasses inner_classes =>
    some (strInnerClasses, writeU16 inner_classes.length ++
      inner_classes.flatMap (fun c =>
        writeU16 c.inner_class_info_index ++
        writeU16 c.outer_class_info_index ++
        writeU16 c.inner_name_index ++
        writeU16 (compact_inner_class_flags c.inner_class_access_flags)))
  | .RuntimeVisibleAnnots annots =>
    some (strRuntimeVisibleAnnots, write_annots annots)
  | .RuntimeInvisibleAnnots annots =>
    some (strRuntimeInvisibleAnnots, write_annots annots)
  | .ConstantValue constantvalue_index =>
    some (strConstantValue, writeU16 constantvalue_index)
  | .EnclosingMethod class_index method_index =>
    some (strEnclosingMethod, writeU16 class_index ++
      writeU16 method_index)
  | .Synthetic => some (strSynthetic, [])
  | .Signature signature_index =>
    some (strSignature, writeU16 signature_index)
  | .SourceDebugExtension debug_extension =>
    some (strSourceDebugExtension, debug_extension)
  | .Deprecated => some (strDeprecated, [])
  | .ModuleMainClass main_class_index =>
    some (strModuleMainClass, writeU16 main_class_index)
  | .NestHost host_class_index =>
    some (strNestHost, writeU16 host_class_index)
  | .LocalVariableTable local_variable_table =>
    some (strLocalVariableTable, writeU16 local_variable_table.length ++
      local_variable_table.flatMap (fun v =>
        writeU16 v.start_pc ++ writeU16 v.length ++
        writeU16 v.name_index ++ writeU16 v.descriptor_index ++
        writeU16 v.index))
  | .LocalVariableTypeTable local_variable_type_table =>
    some (strLocalVariableTypeTable,
      writeU16 local_variable_type_table.length ++
      local_variable_type_table.flatMap (fun v =>
        writeU16 v.start_pc ++ writeU16 v.length ++
        writeU16 v.name_index ++ writeU16 v.signature_index ++
        writeU16 v.index))
  | .RuntimeVisibleParameterAnnots parameters_annots =>
    some (strRuntimeVisibleParameterAnnots,
      writeU8 parameters_annots.length ++
      parameters_annots.flatMap write_annots)
  | .RuntimeInvisibleParameterAnnots parameters_annots =>
    some (strRuntimeInvisibleParameterAnnots,
      writeU8 parameters_annots.length ++
      parameters_annots.flatMap write_annots)
  | .AnnotDefault element_value =>
    some (strAnnotDefault, write_element_value element_value)
  | .MethodParameters parameters =>
    some (strMethodParameters, writeU8 parameters.length ++
      parameters.flatMap (fun p =>
        writeU16 p.name_index ++
        writeU16 (compact_method_parameter_flags p.access_flags)))
  | .Module module_name_index module_flags module_version_index
      requires exports opens uses provides =>
    -- transcribed exactly: the `uses` values are written without a
    -- preceding count
    some (strModule, writeU16 module_name_index ++
      writeU16 (compact_module_flags module_flags) ++
      writeU16 module_version_index ++
      write_module_requires requires ++
      write_module_exports exports ++
      write_module_opens opens ++
      uses.flatMap writeU16 ++
      write_module_provides provides)
  | .ModulePackages packages_index =>
    some (strModulePackages, writeU16 packages_index.length ++
      packages_index.flatMap writeU16)
  | .NestMembers classes =>
    some (strNestMembers, writeU16 classes.length ++
      classes.flatMap writeU16)
  | .PermittedSubclasses classes =>
    some (strPermittedSubclasses, writeU16 classes.length ++
      classes.flatMap writeU16)
  | .Record components => do
    let body ← write_record_component_list fuel jvm components
    some (strRecord, writeU16 components.length ++ body)
  | .RuntimeInvisibleTypeAnnots annots =>
    some (strRuntimeInvisibleTypeAnnots, writeU16 annots.length ++
      annots.flatMap write_type_annot)
  | .RuntimeVisibleTypeAnnots annots =>
    some (strRuntimeVisibleTypeAnnots, writeU16 annots.length ++
      annots.flatMap write_type_annot)
  | .Unknown name data => some (name, data)
def write_record_component_list :
    Nat → JVMClass → List RecordComponent → Option (List Nat)
  | _, _, [] => some []
  | 0, _, _ :: _ => none
  | fuel + 1, jvm, .mk name_index descriptor_index attributes :: rest =>
    do
    let a ← write_attributesF fuel jvm attributes
    let bs ← write_record_component_list fuel jvm rest
    some (writeU16 name_index ++ writeU16 descriptor_index ++ a ++ bs)
end

/-! A structural fuel bound for the attribute-writer family: four units
per attribute node plus one per list node dominate every chain of
family-internal calls. -/
mutual
def attrFuel : Attribute → Nat
  | .Code _ _ _ _ attributes => attrListFuel attributes + 4
  | .Record components => recordComponentListFuel components + 4
  | _ => 4
def attrListFuel : List Attribute → Nat
  | [] => 1
  | a :: rest => attrFuel a + attrListFuel rest + 1
def recordComponentListFuel : List RecordComponent → Nat
  | [] => 1
  | .mk _ _ attrs :: rest =>
    attrListFuel attrs + recordComponentListFuel rest + 4
end

/-- `writer.rs` `write_attributes` at an always-sufficient fuel. -/
def write_attributes (jvm : JVMClass) (attributes : List Attribute) :
    Option (List Nat) :=
  write_attributesF (attrListFuel attributes + 4) jvm attributes

/-- `writer.rs` `write_interfaces`. -/
def write_interfaces (interfaces : List Nat) : List Nat :=
  writeU16 interfaces.length ++ interfaces.flatMap writeU16

/-- The field loop of `write_fields`. -/
def write_field_list (jvm : JVMClass) :
    List JvmField → Option (List Nat)
  | [] => some []
  | f :: rest => do
    let a ← write_attributes jvm f.data.attributes
    let bs ← write_field_list jvm rest
    some (writeU16 (compact_field_flags f.data.access_flags) ++
      writeU16 f.data.name ++ writeU16 f.data.descriptor ++ a ++ bs)

/-- `writer.rs` `write_fields`. -/
def write_fields (jvm : JVMClass) (fields : List JvmField) :
    Option (List Nat) := do
  let body ← write_field_list jvm fields
  some (writeU16 fields.length ++ body)

/-- The method loop of `write_methods`. -/
def write_method_list (jvm : JVMClass) :
    List JvmMethod → Option (List Nat)
  | [] => some []
  | m :: rest => do
    let a ← write_attributes jvm m.data.attributes
    let bs ← write_method_list jvm rest
    some (writeU16 (compact_method_flags m.data.access_flags) ++
      writeU16 m.data.name ++ writeU16 m.data.descriptor ++ a ++ bs)

/-- `writer.rs` `write_methods`. -/
def write_methods (jvm : JVMClass) (methods : List JvmMethod) :
    Option (List Nat) := do
  let body ← write_method_list jvm methods
  some (writeU16 methods.length ++ body)

/-- `lib.rs` `JVMClass::store`. -/
def JVMClass.store (jvm : JVMClass) : Option (List Nat) := do
  let f ← write_fields jvm jvm.fields
  let m ← write_methods jvm jvm.methods
  let a ← write_attributes jvm jvm.attributes
  some (writeU32 0xCAFEBABE ++ writeU16 jvm.minor ++ writeU16 jvm.major ++
    write_constant_pool jvm.constants ++
    writeU16 (compact_class_flags jvm.access_flags) ++
    writeU16 jvm.this_class ++ writeU16 jvm.super_class ++
    write_interfaces jvm.interfaces ++ f ++ m ++ a)

/-! ## Claims on the class-level codec -/

/-- A well-formed 63-byte class file: constant pool `[Invalid,
Utf8 "Code"]`, flags `0x0021`, one method whose `Code` attribute holds
the 6-byte body `C4 84 00 01 00 01` (`wide iinc 1, 1`). -/
def classFileWithWideIInc : List Nat :=
  [0xCA, 0xFE, 0xBA, 0xBE, 0, 0, 0, 0x34, 0, 2,
   1, 0, 4, 67, 111, 100, 101,
   0, 0x21, 0, 0, 0, 0, 0, 0, 0, 0, 0, 1,
   0, 0, 0, 0, 0, 0, 0, 1,
   0, 1, 0, 0, 0, 0x12,
   0, 0, 0, 1, 0, 0, 0, 6, 0xC4, 0x84, 0, 1, 0, 1, 0, 0, 0, 0,
   0, 0]

/-- C1: the reader accepts `classFileWithWideIInc`, yet re-encoding the
decoded class reproduces the input with byte 51 changed from `0xC4`
(the wide prefix) to `0xC9` (`jsr_w`) — a byte-level difference covered
by none of the three documented normalizations (no unmapped flag bits,
ASCII-only UTF-8, no stack-map frames are involved). -/
theorem claim_C1_store_load_not_identity :
    (JVMClass.load classFileWithWideIInc).isSome = true ∧
    (JVMClass.load classFileWithWideIInc).bind JVMClass.store =
      some (classFileWithWideIInc.set 51 0xC9) ∧
    classFileWithWideIInc[51]? = some 0xC4 ∧
    (JVMClass.load classFileWithWideIInc).bind JVMClass.store ≠
      some classFileWithWideIInc := by
  refine ⟨rfl, by decide, rfl, by decide⟩

/-- A pool holding just the `Utf8 "Code"` name the attribute writer
resolves. -/
def codePoolClass : JVMClass :=
  { JVMClass.new with
      constants := [Constant.Invalid, Constant.Utf8 strCode] }

/-- C4: encoding a `Code` attribute ignores its exception table: a
one-entry table produces exactly the bytes of an empty table, with
`00 00` written at the `exception_table_length` position and no
`(start_pc, end_pc, handler_pc, catch_type)` quadruple — not the bytes
the claim requires (second inequality).  The in-memory side of the claim
also fails in the source: `enums/mod.rs` declares `Attribute::Code`
without an `exception_table` field. -/
theorem claim_C4_exception_table_dropped :
    write_attributes codePoolClass
        [Attribute.Code [] 0 0
          [{ start_pc := 0, end_pc := 1, handler_pc := 2,
             catch_type := 3 }] []] =
      some [0, 1, 0, 1, 0, 0, 0, 12, 0, 0, 0, 0, 0, 0, 0, 0, 0, 0,
        0, 0] ∧
    write_attributes codePoolClass
        [Attribute.Code [] 0 0
          [{ start_pc := 0, end_pc := 1, handler_pc := 2,
             catch_type := 3 }] []] =
      write_attributes codePoolClass [Attribute.Code [] 0 0 [] []] ∧
    (some [0, 1, 0, 1, 0, 0, 0, 12, 0, 0, 0, 0, 0, 0, 0, 0, 0, 0,
        0, 0] : Option (List Nat)) ≠
      some [0, 1, 0, 1, 0, 0, 0, 20, 0, 0, 0, 0, 0, 0, 0, 0, 0, 1,
        0, 0, 0, 1, 0, 2, 0, 3, 0, 0] := by
  refine ⟨rfl, rfl, by decide⟩

/-- A pool holding just the `Utf8 "StackMapTable"` name. -/
def smtPoolClass : JVMClass :=
  { JVMClass.new with
      constants := [Constant.Invalid, Constant.Utf8 strStackMapTable] }

/-- C6: decoding `StackMapTable` entries contradicts all three claimed
cases.  Frame type 5 (range 0–63) yields `offset_delta = 0`, not 5;
frame type 65 (range 64–127) yields `offset_delta = 0`, not `65 − 64`;
and frame type 247 reads only the verification type — no `u16`
`offset_delta` is consumed, so the two bytes `AA BB` inside the
attribute's declared payload are left on the stream. -/
theorem claim_C6_stack_map_offset_delta :
    read_attributes 100 smtPoolClass
        [0, 1, 0, 1, 0, 0, 0, 3, 0, 1, 5] =
      some ([Attribute.StackMapTable
        [{ frame_type := .SameFrame 5, offset_delta := 0,
           locals := [], stack := [] }]], []) ∧
    (0 : Nat) ≠ 5 ∧
    read_attributes 100 smtPoolClass
        [0, 1, 0, 1, 0, 0, 0, 4, 0, 1, 65, 0] =
      some ([Attribute.StackMapTable
        [{ frame_type := .SameLocals1StackItemFrame 65,
           offset_delta := 0, locals := [],
           stack := [.Top] }]], []) ∧
    (0 : Nat) ≠ 65 - 64 ∧
    read_attributes 100 smtPoolClass
        [0, 1, 0, 1, 0, 0, 0, 6, 0, 1, 247, 0, 0xAA, 0xBB] =
      some ([Attribute.StackMapTable
        [{ frame_type := .SameLocals1StackItemFrameExtended,
           offset_delta := 0, locals := [],
           stack := [.Top] }]], [0xAA, 0xBB]) ∧
    ([0xAA, 0xBB] : List Nat) ≠ [] := by
  refine ⟨rfl, by decide, rfl, by decide, rfl, by decide⟩

/-! ## Claim C8: `get_string` -/

/-- A pool whose entry 1 is `Class` pointing at the `Utf8`
`java/lang/Object`. -/
def javaLangObjectClass : JVMClass :=
  { JVMClass.new with
      constants := [Constant.Invalid, Constant.Class 2,
        Constant.Utf8 [106, 97, 118, 97, 47, 108, 97, 110, 103, 47,
          79, 98, 106, 101, 99, 116]] }

/-- C8 counterexample: resolving the `Class` entry does not return the
referenced name `java/lang/Object` — `get_string` strips the
`java/lang/` prefix and returns `Object`. -/
theorem claim_C8_counterexample :
    JVMClass.get_string javaLangObjectClass 1 =
      some (.ok [79, 98, 106, 101, 99, 116]) ∧
    ([79, 98, 106, 101, 99, 116] : List Nat) ≠
      [106, 97, 118, 97, 47, 108, 97, 110, 103, 47,
       79, 98, 106, 101, 99, 116] := by
  refine ⟨rfl, by decide⟩

/-- C8 (amended): for every class structure and index, `get_string`
returns the stored string for a `Utf8` entry, recurses on `string_index`
for a `String` entry, recurses on `name_index` for a `Class` entry and
then strips a leading `java/lang/` from the result, returns
`InvalidConstantId(index)` when the index is out of range, and returns a
`ConstantTypeError` for an entry of any other tag.  The recursive cases
are stated on `getStringFuel` (one fuel step per resolution hop);
`JVMClass.get_string` is `getStringFuel` at fuel `constants.length + 1`,
which covers every terminating run of the Rust code. -/
theorem claim_C8_get_string_cases (jvm : JVMClass) (fuel id : Nat) :
    (∀ s, jvm.constants[id]? = some (Constant.Utf8 s) →
      jvm.get_string id = some (.ok s)) ∧
    (∀ si, jvm.constants[id]? = some (Constant.String si) →
      getStringFuel jvm (fuel + 1) id = getStringFuel jvm fuel si) ∧
    (∀ ni, jvm.constants[id]? = some (Constant.Class ni) →
      getStringFuel jvm (fuel + 1) id =
        match getStringFuel jvm fuel ni with
        | none => none
        | some (.error e) => some (.error e)
        | some (.ok cname) =>
          some (.ok (if cname.take 10 = javaLangBytes
            then cname.drop 10 else cname))) ∧
    (jvm.constants[id]? = none →
      jvm.get_string id = some (.error (.InvalidConstantId id))) ∧
    (∀ c, jvm.constants[id]? = some c →
      (∀ s, c ≠ Constant.Utf8 s) →
      (∀ si, c ≠ Constant.String si) →
      (∀ ni, c ≠ Constant.Class ni) →
      ∃ msg, jvm.get_string id =
        some (.error (.ConstantTypeError msg))) := by
  refine ⟨?_, ?_, ?_, ?_, ?_⟩
  · intro s h
    simp [JVMClass.get_string, getStringFuel, h]
  · intro si h
    simp [getStringFuel, h]
  · intro ni h
    simp only [getStringFuel, h]
  · intro h
    simp [JVMClass.get_string, getStringFuel, h]
  · intro c h hutf hstr hcls
    refine ⟨"#" ++ toString id ++ " is not a string, but a " ++
      constantDisplay c, ?_⟩
    rw [JVMClass.get_string]
    cases c with
    | Utf8 s => exact absurd rfl (hutf s)
    | String si => exact absurd rfl (hstr si)
    | Class ni => exact absurd rfl (hcls ni)
    | _ => simp [getStringFuel, h]

/-- A five-entry pool exercising every `get_string` case: a `Utf8`, a
`String` pointing at it, a `Class` pointing at it, and an `Integer`. -/
def c8WitnessClass : JVMClass :=
  { JVMClass.new with
      constants := [Constant.Invalid, Constant.Utf8 [65],
        Constant.String 1, Constant.Class 1, Constant.Integer 0] }

/-- Witness for `claim_C8_get_string_cases`: each of the five cases
instantiated on `c8WitnessClass`, with every hypothesis discharged by
`rfl` or by constructor disjointness. -/
theorem claim_C8_get_string_cases_witness :
    JVMClass.get_string c8WitnessClass 1 = some (.ok [65]) ∧
    getStringFuel c8WitnessClass 3 2 = getStringFuel c8WitnessClass 2 1 ∧
    getStringFuel c8WitnessClass 3 3 =
      (match getStringFuel c8WitnessClass 2 1 with
       | none => none
       | some (.error e) => some (.error e)
       | some (.ok cname) =>
         some (.ok (if cname.take 10 = javaLangBytes
           then cname.drop 10 else cname))) ∧
    JVMClass.get_string c8WitnessClass 9 =
      some (.error (.InvalidConstantId 9)) ∧
    ∃ msg, JVMClass.get_string c8WitnessClass 4 =
      some (.error (.ConstantTypeError msg)) :=
  ⟨(claim_C8_get_string_cases c8WitnessClass 2 1).1 [65] rfl,
   (claim_C8_get_string_cases c8WitnessClass 2 2).2.1 1 rfl,
   (claim_C8_get_string_cases c8WitnessClass 2 3).2.2.1 1 rfl,
   (claim_C8_get_string_cases c8WitnessClass 2 9).2.2.2.1 rfl,
   (claim_C8_get_string_cases c8WitnessClass 2 4).2.2.2.2
     (Constant.Integer 0) rfl (fun _ h => Constant.noConfusion h)
     (fun _ h => Constant.noConfusion h)
     (fun _ h => Constant.noConfusion h)⟩
